import Mathlib

/-!
# Verification of the eigenAgent orchestration core

A shallow embedding, in Lean 4, of the orchestration core of the eigenAgent
desktop assistant (`src-tauri/src`): the streaming chat-completion loop
(`commands/streaming.rs`), the model download/cancel commands and the model
switch command (`commands/model.rs`), and the message persistence round trip
(`db.rs` / `commands/chat.rs`).

Modelling conventions:
* Machine integers (`usize`, `u64`, `i64`) are modelled as `Nat`/`Int`; none of
  the modelled code paths rely on wraparound.
* Effects are made explicit: the outcomes of network reads, subprocess spawns,
  event emissions and the shared cancellation flag are supplied by an
  environment record, and each command is a pure function from that environment
  and the starting state to a `(result, final state)` pair plus an event trace.
* The shared `is_cancelled` / per-download cancellation flags are written by a
  concurrent caller; their reads are modelled by a monotone oracle: the flag
  reads `false` until a given number of checks have happened and `true` from
  then on (`cancelAfter`), matching a flag that is set once and never cleared
  during the operation.
* `Result<T, String>` error strings built with distinct `format!` templates are
  modelled by a structured error type, one constructor per template.
* Database inserts and reads are modelled as a pure log (their failure modes
  are orthogonal to every claim treated here); wall-clock durations and
  download speeds are not modelled.
-/

namespace EigenAgent

/-! ## Streaming tool-call deltas (`types/openai.rs`, `commands/streaming.rs`) -/

/-- `FunctionCallDelta` from `types/openai.rs`: optional name and arguments
fragment of one streamed tool-call delta. -/
structure FunctionCallDelta where
  name : Option String
  arguments : Option String
  deriving Repr, DecidableEq

/-- `ToolCallDelta` from `types/openai.rs`: one streamed tool-call fragment,
addressed by `index`. -/
structure ToolCallDelta where
  index : Nat
  id : Option String
  function : Option FunctionCallDelta
  deriving Repr, DecidableEq

/-- `AccumulatedToolCall` from `commands/streaming.rs` (lines 45–50), with the
`Default` derive (`id`, `name`, `arguments` all empty). -/
structure AccumulatedToolCall where
  id : String := ""
  name : String := ""
  arguments : String := ""
  deriving Repr, DecidableEq

instance : Inhabited AccumulatedToolCall := ⟨⟨"", "", ""⟩⟩

/-- The `while tool_calls.len() <= idx { tool_calls.push(default) }` loop of
`chat_stream`: pad the list with default entries until index `idx` exists. -/
def ensureSlots (tcs : List AccumulatedToolCall) (idx : Nat) :
    List AccumulatedToolCall :=
  tcs ++ List.replicate (idx + 1 - tcs.length) default

/-- The effect of one `ToolCallDelta` on the entry at its index, exactly as in
`chat_stream` lines 276–288: an `id` overwrites, a `function.name` overwrites,
a `function.arguments` fragment is appended. -/
def applyDeltaToEntry (e : AccumulatedToolCall) (d : ToolCallDelta) :
    AccumulatedToolCall :=
  let e := match d.id with
    | some i => { e with id := i }
    | none => e
  match d.function with
  | some f =>
    let e := match f.name with
      | some n => { e with name := n }
      | none => e
    match f.arguments with
    | some a => { e with arguments := e.arguments ++ a }
    | none => e
  | none => e

/-- Process one tool-call delta against the accumulated list (`chat_stream`
lines 267–289): grow the list to cover the delta's index, then merge the
delta's fields into the entry at that index. -/
def applyToolCallDelta (tcs : List AccumulatedToolCall) (d : ToolCallDelta) :
    List AccumulatedToolCall :=
  let tcs := ensureSlots tcs d.index
  tcs.set d.index (applyDeltaToEntry (tcs.getD d.index default) d)

/-- The accumulated tool-call list produced by folding a sequence of deltas in
arrival order, starting from the empty list, as `chat_stream` does across the
events of one streamed iteration. -/
def accumulateToolCalls (ds : List ToolCallDelta) : List AccumulatedToolCall :=
  ds.foldl applyToolCallDelta []

/-- Specification view: the arguments fragments delivered for index `i`, in
arrival order. -/
def fragmentsFor (ds : List ToolCallDelta) (i : Nat) : List String :=
  (ds.filter (fun d => d.index == i)).filterMap
    (fun d => d.function.bind FunctionCallDelta.arguments)

/-- Specification view: the ids delivered for index `i`, in arrival order. -/
def idsFor (ds : List ToolCallDelta) (i : Nat) : List String :=
  (ds.filter (fun d => d.index == i)).filterMap ToolCallDelta.id

/-- Specification view: the names delivered for index `i`, in arrival order. -/
def namesFor (ds : List ToolCallDelta) (i : Nat) : List String :=
  (ds.filter (fun d => d.index == i)).filterMap
    (fun d => d.function.bind FunctionCallDelta.name)

/-- Specification view: the entry the spec predicts at index `i` — last id,
last name (empty if never delivered), concatenation of argument fragments. -/
def specEntry (ds : List ToolCallDelta) (i : Nat) : AccumulatedToolCall :=
  { id := ((idsFor ds i).getLast?).getD ""
    name := ((namesFor ds i).getLast?).getD ""
    arguments := String.join (fragmentsFor ds i) }

/-- The highest index appearing in a delta sequence (0 when empty). -/
def maxIndex (ds : List ToolCallDelta) : Nat :=
  (ds.map ToolCallDelta.index).foldl max 0

/-! ## The `chat_stream` command (`commands/streaming.rs`)

The SSE data strings are modelled at the parsing boundary: any `data` string is
either `"[DONE]"`, a string `serde_json::from_str::<OpenAIStreamResponse>`
accepts (carried parsed), or one it rejects (`payload none`).  The shared
`is_cancelled` atomic, the tool executor, and the Tauri event channel are
modelled by oracles in `ChatEnv`. -/

/-- `OpenAIDelta` from `types/openai.rs`. -/
structure OpenAIDelta where
  content : Option String
  reasoning_content : Option String
  tool_calls : Option (List ToolCallDelta)
  deriving Repr, DecidableEq

/-- `OpenAIStreamChoice` from `types/openai.rs`. -/
structure OpenAIStreamChoice where
  delta : OpenAIDelta
  deriving Repr, DecidableEq

/-- `OpenAIStreamResponse` from `types/openai.rs`. -/
structure OpenAIStreamResponse where
  choices : List OpenAIStreamChoice
  deriving Repr, DecidableEq

/-- The `data` field of one SSE message, at the parsing boundary:
`"[DONE]"`, a parseable response, or an unparseable string. -/
inductive MessageData where
  | done
  | payload (p : Option OpenAIStreamResponse)
  deriving Repr, DecidableEq

/-- One event yielded by `reqwest_eventsource::EventSource`:
`Ok(Event::Open)`, `Ok(Event::Message(..))`, or `Err(..)`. -/
inductive SSEEvent where
  | opened
  | message (data : MessageData)
  | errored
  deriving Repr, DecidableEq

/-- `ToolCallResult` as returned by `execute_tool` (`tools/types.rs`). -/
structure ToolCallResult where
  success : Bool
  output : String
  error : Option String
  deriving Repr, DecidableEq

/-- A UI event emitted through `app.emit` during `chat_stream`.  The
`tool:calling` payload's parsed `arguments` JSON value is represented by the
raw accumulated arguments text it was parsed from. -/
inductive UIEvent where
  | chatBegin (chatId : String)
  | chatDelta (chatId delta reasoningDelta : String)
  | toolCalling (chatId toolId toolName callId argsText : String)
  | toolResult (chatId callId toolId : String) (success : Bool)
      (output : String) (error : Option String)
  | chatEnd (chatId : String)
  | chatsChanged
  deriving Repr, DecidableEq

/-- `ToolCall` from `types/openai.rs` (the `type` field is the constant
`"function"` and is omitted). -/
structure ToolCall where
  id : String
  name : String
  arguments : String
  deriving Repr, DecidableEq

/-- The `ConversationMessage` union of `commands/streaming.rs` (lines 53–59).
`standard` keeps the role and the text content (image parts, which never
influence control flow, are kept as the raw base64 list alongside). -/
inductive ConversationMessage where
  | standard (role content : String) (images : List String)
  | assistantWithTools (content : Option String) (toolCalls : List ToolCall)
  | toolResult (toolCallId content : String)
  deriving Repr, DecidableEq

/-- A row written through `insert_message` during `chat_stream`. -/
structure SavedMessage where
  role : String
  content : String
  thinking : String
  images : List String
  durationPresent : Bool
  deriving Repr, DecidableEq

/-- Environment of one `chat_stream` call: outcomes of every effect. -/
structure ChatEnv where
  /-- Events yielded by the SSE stream opened at iteration `k`. -/
  streams : Nat → List SSEEvent
  /-- The `is_cancelled` flag reads `true` at the `n`-th check (counted from 0
  across the whole call) iff `cancelAfter = some t` with `t ≤ n`. -/
  cancelAfter : Option Nat
  /-- Result of the `n`-th `execute_tool` invocation of the call. -/
  toolResults : Nat → ToolCallResult

/-- Mutable state threaded through one `chat_stream` call. -/
structure TurnState where
  conversation : List ConversationMessage
  fullContent : String
  fullThinking : String
  /-- Rows written to the `messages` table, in order. -/
  saved : List SavedMessage
  /-- Attempted `app.emit` calls, in order. -/
  emitted : List UIEvent
  emitCount : Nat
  /-- Number of reads of the `is_cancelled` flag so far. -/
  checksDone : Nat
  /-- Number of `execute_tool` invocations so far. -/
  execCount : Nat
  /-- Number of streaming completion requests opened so far. -/
  requests : Nat
  deriving Repr, DecidableEq

/-- The value one read of `state.is_cancelled` observes, given the oracle
describing when the flag becomes set. -/
def cancelledNow (cancelAfter : Option Nat) (s : TurnState) : Bool :=
  match cancelAfter with
  | none => false
  | some t => decide (t ≤ s.checksDone)

/-- Count one read of `state.is_cancelled`. -/
def noteCheck (s : TurnState) : TurnState :=
  { s with checksDone := s.checksDone + 1 }

/-- One `app.emit` call: record the attempt.  The state update does not
depend on the delivery outcome, which the caller reads separately from
`emitOk` where the source consults it. -/
def recordEmit (e : UIEvent) (s : TurnState) : TurnState :=
  { s with emitted := s.emitted ++ [e], emitCount := s.emitCount + 1 }

/-- Per-iteration accumulators of the streaming loop. -/
structure IterAcc where
  content : String
  thinking : String
  toolCalls : List AccumulatedToolCall
  deriving Repr, DecidableEq

/-- The `while let Some(event) = es.next().await` loop of `chat_stream`
(lines 224–299): before each event the cancellation flag is checked (set ⇒
close and break); `[DONE]` and stream errors break; parse failures and
responses with no choice are skipped; content/reasoning deltas extend the
accumulators and are echoed as a `chat:delta` event whose delivery outcome is
discarded; tool-call deltas are merged by index. -/
def processEvents (cancelAfter : Option Nat) (chatId : String) :
    List SSEEvent → IterAcc → TurnState → IterAcc × TurnState
  | [], acc, s => (acc, s)
  | e :: rest, acc, s =>
    let c := cancelledNow cancelAfter s
    let s := noteCheck s
    if c then (acc, s)
    else
      match e with
      | .opened => processEvents cancelAfter chatId rest acc s
      | .errored => (acc, s)
      | .message .done => (acc, s)
      | .message (.payload none) => processEvents cancelAfter chatId rest acc s
      | .message (.payload (some resp)) =>
        match resp.choices.head? with
        | none => processEvents cancelAfter chatId rest acc s
        | some choice =>
          let contentDelta := choice.delta.content.getD ""
          let reasoningDelta := choice.delta.reasoning_content.getD ""
          let acc :=
            if contentDelta.isEmpty then acc
            else { acc with content := acc.content ++ contentDelta }
          let s :=
            if contentDelta.isEmpty then s
            else { s with fullContent := s.fullContent ++ contentDelta }
          let acc :=
            if reasoningDelta.isEmpty then acc
            else { acc with thinking := acc.thinking ++ reasoningDelta }
          let s :=
            if reasoningDelta.isEmpty then s
            else { s with fullThinking := s.fullThinking ++ reasoningDelta }
          let s :=
            if contentDelta.isEmpty && reasoningDelta.isEmpty then s
            else recordEmit (.chatDelta chatId contentDelta reasoningDelta) s
          let acc :=
            match choice.delta.tool_calls with
            | some ds =>
              { acc with toolCalls := ds.foldl applyToolCallDelta acc.toolCalls }
            | none => acc
          processEvents cancelAfter chatId rest acc s

/-- Execution of the accumulated tool calls (`chat_stream` lines 338–390):
emit `tool:calling` (outcome discarded), invoke the executor, emit
`tool:result` (outcome discarded), append a `ToolResult` message whose content
is the output on success or `"Error: …"` on failure. -/
def execToolCalls (toolResults : Nat → ToolCallResult) (chatId : String) :
    List AccumulatedToolCall → TurnState → TurnState
  | [], s => s
  | tc :: rest, s =>
    let s := recordEmit (.toolCalling chatId tc.name tc.name tc.id tc.arguments) s
    let result := toolResults s.execCount
    let s := { s with execCount := s.execCount + 1 }
    let s := recordEmit
      (.toolResult chatId tc.id tc.name result.success result.output result.error) s
    let resultContent :=
      if result.success then result.output
      else "Error: " ++ result.error.getD ""
    let s := { s with conversation :=
      s.conversation ++ [ConversationMessage.toolResult tc.id resultContent] }
    execToolCalls toolResults chatId rest s

/-- The tool-calling loop of `chat_stream` (`for iteration in 0..MAX_TOOL_ITERATIONS`,
lines 195–391).  `iter` is the iteration number, `fuel` the remaining
iterations (`fuel = 10 - iter` at the top level).  Each pass: check the
cancellation flag (set ⇒ break the loop); open the streaming request; run the
event loop; if no tool calls were accumulated, break; otherwise append the
assistant-with-tool-calls message, execute the tool calls, and continue. -/
def runIterations (env : ChatEnv) (chatId : String) :
    Nat → Nat → TurnState → TurnState
  | _, 0, s => s
  | iter, fuel + 1, s =>
    let c := cancelledNow env.cancelAfter s
    let s := noteCheck s
    if c then s
    else
      let s := { s with requests := s.requests + 1 }
      let (acc, s) := processEvents env.cancelAfter chatId (env.streams iter) ⟨"", "", []⟩ s
      if acc.toolCalls.isEmpty then s
      else
        let assistantToolCalls : List ToolCall :=
          acc.toolCalls.map (fun tc => ⟨tc.id, tc.name, tc.arguments⟩)
        let s := { s with conversation := s.conversation ++
          [ConversationMessage.assistantWithTools
            (if acc.content.isEmpty then none else some acc.content)
            assistantToolCalls] }
        let s := execToolCalls env.toolResults chatId acc.toolCalls s
        runIterations env chatId (iter + 1) fuel s

/-- Structured stand-ins for the `Result<(), String>` error strings
`chat_stream` can return on the modelled paths (the two `app.emit` calls whose
errors are propagated with `?`). -/
inductive ChatErr where
  | beginEmitFailed
  | endEmitFailed
  deriving Repr, DecidableEq

/-- `MAX_TOOL_ITERATIONS` from `commands/streaming.rs` line 193. -/
def MAX_TOOL_ITERATIONS : Nat := 10

/-- The `chat_stream` command (`commands/streaming.rs` lines 61–422), after
history loading and settings reads (supplied as `history`, `systemPrompt`):
reset the cancellation flag (the check counter starts at 0), persist the user
message, build the conversation from the system prompt plus the last 20
history rows, emit `chat:begin` (error propagated), run the tool-calling loop,
persist the assistant message, emit `chat:end` (error propagated), emit
`chats:changed` (outcome discarded). -/
def chatInitState (prompt : String) (images : List String)
    (history : List (String × String × List String))
    (systemPrompt : String) : TurnState :=
  let recent := if history.length > 20
    then history.drop (history.length - 20) else history
  let histMsgs := recent.map
    (fun h => ConversationMessage.standard h.1 h.2.1 h.2.2)
  { conversation :=
      ConversationMessage.standard "system" systemPrompt [] :: histMsgs,
    fullContent := "", fullThinking := "",
    saved := [⟨"user", prompt, "", images, false⟩],
    emitted := [], emitCount := 0, checksDone := 0, execCount := 0,
    requests := 0 }

/-- The index of the `app.emit` at which `chat_stream` sends `chat:end`:
the emission count accumulated by the `chat:begin` emission and the
tool-calling loop. -/
def endEmitIndex (env : ChatEnv) (chatId prompt : String)
    (images : List String) (history : List (String × String × List String))
    (systemPrompt : String) : Nat :=
  (runIterations env chatId 0 MAX_TOOL_ITERATIONS
    (recordEmit (.chatBegin chatId)
      (chatInitState prompt images history systemPrompt))).emitCount

def chat_stream (env : ChatEnv) (emitOk : Nat → Bool) (chatId prompt : String)
    (images : List String) (history : List (String × String × List String))
    (systemPrompt : String) : Except ChatErr TurnState × TurnState :=
  let s0 := chatInitState prompt images history systemPrompt
  let okBegin := emitOk s0.emitCount
  let s := recordEmit (.chatBegin chatId) s0
  if !okBegin then (.error .beginEmitFailed, s)
  else
    let s := runIterations env chatId 0 MAX_TOOL_ITERATIONS s
    let s := { s with saved :=
      s.saved ++ [⟨"assistant", s.fullContent, s.fullThinking, [], true⟩] }
    let okEnd := emitOk s.emitCount
    let s := recordEmit (.chatEnd chatId) s
    if !okEnd then (.error .endEmitFailed, s)
    else
      let s := recordEmit .chatsChanged s
      (.ok s, s)

/-- The tool-call deltas an event list delivers to the merge, in arrival
order, honouring the event loop's control flow: `[DONE]` and stream errors
stop delivery, parse failures and empty `choices` are skipped. -/
def processedToolDeltas : List SSEEvent → List ToolCallDelta
  | [] => []
  | e :: rest =>
    match e with
    | .opened => processedToolDeltas rest
    | .errored => []
    | .message .done => []
    | .message (.payload none) => processedToolDeltas rest
    | .message (.payload (some resp)) =>
      match resp.choices.head? with
      | none => processedToolDeltas rest
      | some choice =>
        (choice.delta.tool_calls.getD []) ++ processedToolDeltas rest

/-- The tool-call list one streamed iteration accumulates, as a pure function
of its event list (valid when no cancellation interrupts the stream). -/
def streamToolCalls (events : List SSEEvent) : List AccumulatedToolCall :=
  accumulateToolCalls (processedToolDeltas events)

/-! ## The download commands (`commands/model.rs`)

`activeDownloads` maps a model id to its cancellation token; the token's
`Bool` value records what `cancel_download` has stored.  The reads of the
token performed *inside* a running `download_model` race with a concurrent
canceller and are therefore driven by the `cancelAfter` oracle of `DlEnv`,
counted over that call's checks (one before each file, one before each
chunk). -/

/-- Association-list membership test on the first component. -/
def keyMem (k : String) {α : Type} (m : List (String × α)) : Bool :=
  m.any (fun p => p.1 == k)

/-- `HashMap::remove`. -/
def removeKey (k : String) {α : Type} (m : List (String × α)) :
    List (String × α) :=
  m.filter (fun p => !(p.1 == k))

/-- `HashMap::insert` (overwrites an existing entry). -/
def setKey (k : String) {α : Type} (v : α) (m : List (String × α)) :
    List (String × α) :=
  removeKey k m ++ [(k, v)]

/-- `ModelFile` from `types/model.rs`: one artifact of a catalog entry. -/
structure ModelFile where
  filename : String
  url : String
  size_bytes : Nat
  deriving Repr, DecidableEq

/-- A `ModelCatalogEntry` (`types/model.rs`), reduced to the fields
`download_model` reads. -/
structure CatalogEntry where
  id : String
  modelFile : ModelFile
  mmproj : Option ModelFile
  deriving Repr, DecidableEq

/-- One `stream.next().await` outcome inside the byte-streaming loop:
a chunk of `size` bytes whose `write_all` either succeeds (`writeErr = none`)
or fails, or a chunk-read error. -/
inductive ChunkEv where
  | chunk (size : Nat) (writeErr : Option String)
  | readErr (msg : String)
  deriving Repr, DecidableEq

/-- Outcome of the `GET` issued for one file: a transport error from
`send().await`, or a response with a status, a `File::create` outcome, a
chunk sequence, and a `flush` outcome. -/
inductive FileOutcome where
  | getTransportError (msg : String)
  | httpResponse (okStatus : Bool) (statusText : String)
      (createErr : Option String) (chunks : List ChunkEv)
      (flushErr : Option String)
  deriving Repr, DecidableEq

/-- Structured stand-ins for the error strings `download_model` returns. -/
inductive DlErr where
  | notFoundInCatalog (id : String)
  | alreadyDownloading
  | createDirFailed (msg : String)
  | transportError (msg : String)
  | httpError (statusText : String)
  | fileCreateFailed (msg : String)
  | chunkReadFailed (msg : String)
  | writeFailed (msg : String)
  | flushFailed (msg : String)
  | cancelled
  deriving Repr, DecidableEq

/-- A UI event emitted by the download commands. -/
inductive DlEvent where
  | progress (modelId : String) (downloadedBytes totalBytes : Nat)
      (percent : ℚ)
  | complete (modelId : String)
  deriving Repr, DecidableEq

/-- Environment of one `download_model` call. -/
structure DlEnv where
  /-- The catalog `load_or_create_catalog` returns. -/
  catalog : List CatalogEntry
  /-- Outcome of `std::fs::create_dir_all` on the model directory. -/
  createDirErr : Option String
  /-- The cancellation-token reads of this call: the `n`-th check reads
  `true` iff `cancelAfter = some t` with `t ≤ n`. -/
  cancelAfter : Option Nat
  /-- Outcome of the `GET` + body stream for the `i`-th file.  Every
  download emission discards its delivery outcome (`let _ = app.emit(..)`),
  so no delivery oracle is consumed here; the attempts are recorded in
  `DlState.emitted`. -/
  fileOutcomes : Nat → FileOutcome

/-- Shared runtime state touched by the download commands.  `dirs` holds the
model ids whose directory currently exists on disk; `requestsMade` the URLs
`GET`-ted so far; `emitted` the attempted UI events. -/
structure DlState where
  activeDownloads : List (String × Bool)
  downloadingProgress : List (String × ℚ)
  dirs : List String
  requestsMade : List String
  emitted : List DlEvent
  deriving Repr, DecidableEq

/-- Per-call mutable data of `download_model`: the shared state, the number of
cancellation checks done, and the running `total_downloaded` byte counter. -/
structure DlRun where
  st : DlState
  checks : Nat
  totalDownloaded : Nat
  deriving Repr, DecidableEq

/-- The value one read of this download's cancellation token observes. -/
def dlCancelledNow (env : DlEnv) (r : DlRun) : Bool :=
  match env.cancelAfter with
  | none => false
  | some t => decide (t ≤ r.checks)

/-- Count one read of this download's cancellation token. -/
def dlNoteCheck (r : DlRun) : DlRun :=
  { r with checks := r.checks + 1 }

/-- The cleanup performed by the non-2xx and cancellation paths: delete the
model directory recursively and drop both tracking entries. -/
def dlCleanup (modelId : String) (st : DlState) : DlState :=
  { st with
    dirs := st.dirs.filter (fun d => !(d == modelId)),
    activeDownloads := removeKey modelId st.activeDownloads,
    downloadingProgress := removeKey modelId st.downloadingProgress }

/-- The byte-streaming loop of `download_model` (lines 380–428): before each
chunk the token is checked (set ⇒ cleanup and `"Download cancelled"`); a
chunk-read or write failure returns the error *without* cleanup; otherwise the
counters and the progress entry are updated and a throttled
`download:progress` event is attempted.  `percent` is `f32` in the source,
modelled exactly in `ℚ`. -/
def downloadChunks (modelId : String) (env : DlEnv) (totalBytes : Nat) :
    List ChunkEv → Nat → DlRun → Except DlErr Unit × DlRun
  | [], _, r => (.ok (), r)
  | ce :: rest, fileDownloaded, r =>
    let c := dlCancelledNow env r
    let r := dlNoteCheck r
    if c then (.error .cancelled, { r with st := dlCleanup modelId r.st })
    else
      match ce with
      | .readErr msg => (.error (.chunkReadFailed msg), r)
      | .chunk size writeErr =>
        match writeErr with
        | some msg => (.error (.writeFailed msg), r)
        | none =>
          let fileDownloaded := fileDownloaded + size
          let r := { r with totalDownloaded := r.totalDownloaded + size }
          let percent : ℚ := (r.totalDownloaded : ℚ) * 100 / (totalBytes : ℚ)
          let r := { r with st := { r.st with
            downloadingProgress := setKey modelId percent r.st.downloadingProgress } }
          let newEmits :=
            if fileDownloaded % (1024 * 100) < size then
              [DlEvent.progress modelId r.totalDownloaded totalBytes percent]
            else []
          let r := { r with st := { r.st with
            emitted := r.st.emitted ++ newEmits } }
          downloadChunks modelId env totalBytes rest fileDownloaded r

/-- The per-file loop of `download_model` (lines 334–431): before each file
the token is checked (set ⇒ cleanup and `"Download cancelled"`); the `GET` is
recorded; a transport error returns *without* cleanup; a non-2xx status
cleans up; a `File::create` or `flush` failure returns *without* cleanup. -/
def downloadFiles (modelId : String) (env : DlEnv) (totalBytes : Nat) :
    List (ModelFile × FileOutcome) → DlRun → Except DlErr Unit × DlRun
  | [], r => (.ok (), r)
  | (f, out) :: rest, r =>
    let c := dlCancelledNow env r
    let r := dlNoteCheck r
    if c then (.error .cancelled, { r with st := dlCleanup modelId r.st })
    else
      let r := { r with st := { r.st with requestsMade :=
        r.st.requestsMade ++ [f.url] } }
      match out with
      | .getTransportError msg => (.error (.transportError msg), r)
      | .httpResponse okStatus statusText createErr chunks flushErr =>
        if !okStatus then
          (.error (.httpError statusText), { r with st := dlCleanup modelId r.st })
        else
          match createErr with
          | some msg => (.error (.fileCreateFailed msg), r)
          | none =>
            match downloadChunks modelId env totalBytes chunks 0 r with
            | (.error e, r) => (.error e, r)
            | (.ok (), r) =>
              match flushErr with
              | some msg => (.error (.flushFailed msg), r)
              | none => downloadFiles modelId env totalBytes rest r

/-- The phase of `download_model` after the model directory has been created:
run the per-file loop; on loop failure return the error with whatever state
the loop left; on success drop both tracking entries and emit
`download:complete`. -/
def downloadRun (env : DlEnv) (modelId : String) (entry : CatalogEntry)
    (st : DlState) : Except DlErr Unit × DlState :=
  let st := { st with dirs :=
    if st.dirs.contains modelId then st.dirs else st.dirs ++ [modelId] }
  let totalBytes := entry.modelFile.size_bytes +
    ((entry.mmproj.map ModelFile.size_bytes).getD 0)
  let files := entry.modelFile :: entry.mmproj.toList
  let paired := (files.enum).map (fun p => (p.2, env.fileOutcomes p.1))
  match downloadFiles modelId env totalBytes paired ⟨st, 0, 0⟩ with
  | (.error e, r) => (.error e, r.st)
  | (.ok (), r) =>
    let st := { r.st with
      activeDownloads := removeKey modelId r.st.activeDownloads,
      downloadingProgress := removeKey modelId r.st.downloadingProgress }
    let st := { st with emitted := st.emitted ++ [DlEvent.complete modelId] }
    (.ok (), st)

/-- The `download_model` command (`commands/model.rs` lines 275–448): catalog
lookup, rejection of an id already in `activeDownloads`, registration of a
fresh (unset) token and a 0% progress entry, directory creation, the per-file
download loop, and on success the removal of both tracking entries and a
`download:complete` event. -/
def download_model (env : DlEnv) (modelId : String) (st : DlState) :
    Except DlErr Unit × DlState :=
  match env.catalog.find? (fun e => e.id == modelId) with
  | none => (.error (.notFoundInCatalog modelId), st)
  | some entry =>
    if keyMem modelId st.activeDownloads then (.error .alreadyDownloading, st)
    else
      let st := { st with activeDownloads := setKey modelId false st.activeDownloads }
      let st := { st with downloadingProgress := setKey modelId 0 st.downloadingProgress }
      match env.createDirErr with
      | some msg => (.error (.createDirFailed msg), st)
      | none => downloadRun env modelId entry st

/-- The `cancel_download` command (`commands/model.rs` lines 450–464): if the
id has an entry in `activeDownloads`, store `true` into its token; in every
case return `Ok`. -/
def cancel_download (modelId : String) (st : DlState) :
    Except DlErr Unit × DlState :=
  match st.activeDownloads.find? (fun p => p.1 == modelId) with
  | some _ =>
    (.ok (), { st with activeDownloads :=
      st.activeDownloads.map (fun p => if p.1 == modelId then (p.1, true) else p) })
  | none => (.ok (), st)

/-! ## The `switch_model` command (`commands/model.rs` lines 98–273) -/

/-- Structured stand-ins for the error strings `switch_model` returns. -/
inductive SwitchErr where
  | legacyNotFound
  | notFoundInCatalog (id : String)
  | notDownloaded (id : String)
  | sidecarFailed (msg : String)
  | spawnFailed (msg : String)
  | readyFailed (msg : String)
  deriving Repr, DecidableEq

/-- A `model:switching` / `model:ready` event. -/
inductive SwitchEvent where
  | switching (modelId status : String) (error : Option String)
  | modelReady
  deriving Repr, DecidableEq

/-- Environment of one `switch_model` call. -/
structure SwitchEnv where
  /-- Ids present in the loaded catalog. -/
  catalogIds : List String
  /-- `scan_models_dir(&state.models_dir)` outcome (for the `"legacy"` id). -/
  legacyScan : Option (String × Option String)
  /-- `get_model_paths` outcome per catalog id: `none` means the artifacts
  are not on disk. -/
  resolvePaths : String → Option (String × Option String)
  /-- `shell.sidecar("llama-server")` outcome. -/
  sidecarErr : Option String
  /-- `cmd.spawn()` outcome; `Ok` carries the child handle. -/
  spawnResult : Except String Nat
  /-- `wait_for_server_ready(&server_url, 120)` outcome.  Every
  `switch_model` emission discards its delivery outcome
  (`let _ = app.emit(..)`); the attempts are recorded in
  `SrvState.emitted`. -/
  readyErr : Option String

/-- The server-lifecycle fields of `LlamaServerManager` (`state.rs`) touched
by `switch_model`, plus the attempted event trace. -/
structure SrvState where
  process : Option Nat
  is_ready : Bool
  model_path : String
  mmproj_path : Option String
  current_model_id : Option String
  emitted : List SwitchEvent
  deriving Repr, DecidableEq

/-- Record one attempted `model:switching`/`model:ready` emission. -/
def emitSwitch (e : SwitchEvent) (st : SrvState) : SrvState :=
  { st with emitted := st.emitted ++ [e] }

/-- Path resolution of `switch_model` (lines 117–131): the `"legacy"` id is
resolved by scanning the models directory; any other id must be in the
catalog and have its artifacts on disk. -/
def resolveModelPaths (env : SwitchEnv) (modelId : String) :
    Except SwitchErr (String × Option String) :=
  if modelId == "legacy" then
    match env.legacyScan with
    | some p => .ok p
    | none => .error .legacyNotFound
  else if env.catalogIds.contains modelId then
    match env.resolvePaths modelId with
    | some p => .ok p
    | none => .error (.notDownloaded modelId)
  else .error (.notFoundInCatalog modelId)

/-- The `switch_model` command: emit `stopping`; resolve paths; kill the
current process (result ignored); clear `is_ready`; record the intended
model's paths and id *before* spawning; emit `starting`; create the sidecar
command; spawn (failure emits a `status = "error"` event and returns the
error); store the child; wait for readiness (timeout emits a
`status = "error"` event and returns the error); on success set `is_ready`
and emit `ready` and `model:ready`. -/
def switch_model (env : SwitchEnv) (modelId : String) (st : SrvState) :
    Except SwitchErr Unit × SrvState :=
  let st := emitSwitch (.switching modelId "stopping" none) st
  match resolveModelPaths env modelId with
  | .error e => (.error e, st)
  | .ok (mp, mmp) =>
    let st := { st with process := none }
    let st := { st with is_ready := false }
    let st := { st with model_path := mp }
    let st := { st with mmproj_path := mmp }
    let st := { st with current_model_id := some modelId }
    let st := emitSwitch (.switching modelId "starting" none) st
    match env.sidecarErr with
    | some msg => (.error (.sidecarFailed msg), st)
    | none =>
      match env.spawnResult with
      | .error e =>
        let st := emitSwitch (.switching modelId "error" (some
          ("Failed to spawn llama-server: " ++ e))) st
        (.error (.spawnFailed e), st)
      | .ok child =>
        let st := { st with process := some child }
        match env.readyErr with
        | some e =>
          let st := emitSwitch (.switching modelId "error" (some e)) st
          (.error (.readyFailed e), st)
        | none =>
          let st := { st with is_ready := true }
          let st := emitSwitch (.switching modelId "ready" none) st
          let st := emitSwitch .modelReady st
          (.ok (), st)

/-! ## Message persistence (`db.rs`, `commands/chat.rs`)

`insert_message` serialises the image list with `serde_json::to_string` into
the `images TEXT` column; `get_chat_messages` parses it back with
`serde_json::from_str::<Vec<String>>`, falling back to an empty list.  Both
sides of that round trip are implemented here: a faithful serialiser for
string lists and a recursive-descent parser for JSON string arrays. -/

/-- Lower-case hexadecimal digit. -/
def hexDigitChar (n : Nat) : Char :=
  if n < 10 then Char.ofNat (48 + n) else Char.ofNat (87 + n % 16)

/-- `\uXXXX` escape used by `serde_json` for control characters. -/
def uEscape (n : Nat) : String :=
  "\\u" ++ String.mk [hexDigitChar (n / 4096 % 16), hexDigitChar (n / 256 % 16),
    hexDigitChar (n / 16 % 16), hexDigitChar (n % 16)]

/-- `serde_json`'s escaping of one character inside a JSON string. -/
def escapeJsonChar (c : Char) : String :=
  if c = '"' then "\\\""
  else if c = '\\' then "\\\\"
  else if c = '\n' then "\\n"
  else if c = '\r' then "\\r"
  else if c = '\t' then "\\t"
  else if c.toNat = 8 then "\\b"
  else if c.toNat = 12 then "\\f"
  else if c.toNat < 32 then uEscape c.toNat
  else String.singleton c

/-- `serde_json::to_string` of one string. -/
def jsonEncodeString (s : String) : String :=
  "\"" ++ String.join (s.toList.map escapeJsonChar) ++ "\""

/-- `serde_json::to_string` of a `Vec<String>` (no whitespace, comma
separated). -/
def jsonEncodeStringList (xs : List String) : String :=
  "[" ++ String.intercalate "," (xs.map jsonEncodeString) ++ "]"

/-- JSON insignificant whitespace. -/
def isJsonWs (c : Char) : Bool :=
  c == ' ' || c == '\n' || c == '\r' || c == '\t'

/-- Skip insignificant whitespace. -/
def skipWs : List Char → List Char
  | c :: rest => if isJsonWs c then skipWs rest else c :: rest
  | [] => []

/-- Hexadecimal digit value. -/
def hexVal (c : Char) : Option Nat :=
  if '0' ≤ c ∧ c ≤ '9' then some (c.toNat - 48)
  else if 'a' ≤ c ∧ c ≤ 'f' then some (c.toNat - 87)
  else if 'A' ≤ c ∧ c ≤ 'F' then some (c.toNat - 55)
  else none

/-- Single-character JSON escapes. -/
def unescapeChar (c : Char) : Option Char :=
  if c = '"' then some '"'
  else if c = '\\' then some '\\'
  else if c = '/' then some '/'
  else if c = 'b' then some (Char.ofNat 8)
  else if c = 'f' then some (Char.ofNat 12)
  else if c = 'n' then some '\n'
  else if c = 'r' then some '\r'
  else if c = 't' then some '\t'
  else none

/-- Parse the body of a JSON string (the opening quote already consumed) up
to its closing quote.  Surrogate-pair `\u` escapes, which `serde_json` never
produces when serialising, are out of scope of the modelled round trip. -/
def parseStringChars : List Char → Option (List Char × List Char)
  | [] => none
  | '"' :: rest => some ([], rest)
  | '\\' :: 'u' :: a :: b :: c :: d :: rest => do
    let va ← hexVal a
    let vb ← hexVal b
    let vc ← hexVal c
    let vd ← hexVal d
    let (s, r) ← parseStringChars rest
    some (Char.ofNat (va * 4096 + vb * 256 + vc * 16 + vd) :: s, r)
  | '\\' :: e :: rest => do
    let c ← unescapeChar e
    let (s, r) ← parseStringChars rest
    some (c :: s, r)
  | c :: rest => do
    let (s, r) ← parseStringChars rest
    some (c :: s, r)

/-- Parse the comma-separated string elements of a JSON array, after the
opening bracket (at least one element; the closing bracket is consumed). -/
def parseJsonStringElems : Nat → List Char → Option (List String × List Char)
  | 0, _ => none
  | fuel + 1, cs =>
    match skipWs cs with
    | '"' :: rest => do
      let (s, r) ← parseStringChars rest
      match skipWs r with
      | ',' :: r2 => do
        let (xs, r3) ← parseJsonStringElems fuel r2
        some (String.mk s :: xs, r3)
      | ']' :: r2 => some ([String.mk s], r2)
      | _ => none
    | _ => none

/-- `serde_json::from_str::<Vec<String>>`: accepts exactly a JSON array of
strings (with insignificant whitespace), rejects everything else. -/
def jsonDecodeStringList (s : String) : Option (List String) :=
  match skipWs s.toList with
  | '[' :: rest =>
    match skipWs rest with
    | ']' :: r => if (skipWs r).isEmpty then some [] else none
    | _ => do
      let (xs, r) ← parseJsonStringElems (rest.length + 1) rest
      if (skipWs r).isEmpty then some xs else none
  | _ => none

/-- One row of the `messages` table as written by `insert_message`: the image
list is stored as its JSON serialisation in the `images TEXT` column. -/
structure DbRow where
  conversation_id : String
  role : String
  content : String
  thinking : String
  images_json : String
  duration_ms : Option Int
  deriving Repr, DecidableEq

/-- `ChatMessageRow` as returned by `get_chat_messages` (ids and timestamps,
which no claim touches, are omitted). -/
structure ChatMessageRow where
  role : String
  content : String
  thinking : String
  images : List String
  duration_ms : Option Int
  deriving Repr, DecidableEq

/-- `insert_message` (`db.rs` lines 104–140): serialise the image list and
append the row.  Timestamps are monotone, so appending models the
`created_at` order. -/
def insert_message (db : List DbRow) (chatId role content thinking : String)
    (images : List String) (durationMs : Option Int) : List DbRow :=
  db ++ [⟨chatId, role, content, thinking, jsonEncodeStringList images, durationMs⟩]

/-- `get_chat_messages` (`commands/chat.rs` lines 81–122): select the chat's
rows in insertion order and parse each `images` column, falling back to an
empty list when parsing fails. -/
def get_chat_messages (chatId : String) (db : List DbRow) :
    List ChatMessageRow :=
  (db.filter (fun r => r.conversation_id == chatId)).map
    (fun r => ⟨r.role, r.content, r.thinking,
      (jsonDecodeStringList r.images_json).getD [], r.duration_ms⟩)

/-! ## Lemmas: index-addressed tool-call accumulation -/

lemma length_ensureSlots (tcs : List AccumulatedToolCall) (idx : Nat) :
    (ensureSlots tcs idx).length = max tcs.length (idx + 1) := by
  simp only [ensureSlots, List.length_append, List.length_replicate]
  omega

lemma getD_ensureSlots (tcs : List AccumulatedToolCall) (idx i : Nat) :
    (ensureSlots tcs idx).getD i default = tcs.getD i default := by
  unfold ensureSlots
  rcases Nat.lt_or_ge i tcs.length with h | h
  · exact List.getD_append _ _ _ _ h
  · rw [List.getD_append_right _ _ _ _ h, List.getD_eq_default _ _ h]
    rw [List.getD_eq_getD_get?, List.get?_eq_getElem?]
    simp

lemma length_applyToolCallDelta (tcs : List AccumulatedToolCall)
    (d : ToolCallDelta) :
    (applyToolCallDelta tcs d).length = max tcs.length (d.index + 1) := by
  unfold applyToolCallDelta
  rw [List.length_set, length_ensureSlots]

lemma getD_applyToolCallDelta (tcs : List AccumulatedToolCall)
    (d : ToolCallDelta) (i : Nat) :
    (applyToolCallDelta tcs d).getD i default =
      if d.index = i then applyDeltaToEntry (tcs.getD i default) d
      else tcs.getD i default := by
  unfold applyToolCallDelta
  have hlen : d.index < (ensureSlots tcs d.index).length := by
    rw [length_ensureSlots]; omega
  by_cases h : d.index = i
  · subst h
    rw [if_pos rfl]
    rw [List.getD_eq_getElem _ _ (by simpa using hlen)]
    rw [List.getElem_set_self]
    rw [getD_ensureSlots]
  · rw [if_neg h]
    rcases Nat.lt_or_ge i (ensureSlots tcs d.index).length with h' | h'
    · rw [List.getD_eq_getElem _ _ (by simpa using h')]
      rw [List.getElem_set_ne h]
      rw [← List.getD_eq_getElem _ default h', getD_ensureSlots]
    · rw [List.getD_eq_default _ _ (by simpa using h')]
      rw [length_ensureSlots] at h'
      rw [List.getD_eq_default _ _ (le_trans (le_max_left _ _) h')]

lemma getD_foldl_applyToolCallDelta (ds : List ToolCallDelta)
    (acc : List AccumulatedToolCall) (i : Nat) :
    (ds.foldl applyToolCallDelta acc).getD i default =
      (ds.filter (fun d => d.index == i)).foldl applyDeltaToEntry
        (acc.getD i default) := by
  induction ds generalizing acc with
  | nil => rfl
  | cons d rest ih =>
    simp only [List.foldl_cons, List.filter_cons]
    by_cases h : d.index = i
    · simp only [h, beq_self_eq_true, if_pos, List.foldl_cons]
      rw [ih, getD_applyToolCallDelta, if_pos h]
    · have hb : (d.index == i) = false := by simp [h]
      simp only [hb, Bool.false_eq_true, if_false]
      rw [ih, getD_applyToolCallDelta, if_neg h]

lemma length_foldl_applyToolCallDelta (ds : List ToolCallDelta)
    (acc : List AccumulatedToolCall) :
    (ds.foldl applyToolCallDelta acc).length =
      ds.foldl (fun n d => max n (d.index + 1)) acc.length := by
  induction ds generalizing acc with
  | nil => rfl
  | cons d rest ih =>
    simp only [List.foldl_cons]
    rw [ih, length_applyToolCallDelta]

lemma foldl_max_succ (xs : List Nat) : ∀ a : Nat,
    xs.foldl (fun n x => max n (x + 1)) (a + 1) = xs.foldl max a + 1 := by
  induction xs with
  | nil => intro a; rfl
  | cons x rest ih =>
    intro a
    simp only [List.foldl_cons]
    rw [Nat.succ_max_succ, ih]

lemma length_accumulateToolCalls (ds : List ToolCallDelta) (h' : ds ≠ []) :
    (accumulateToolCalls ds).length = maxIndex ds + 1 := by
  unfold accumulateToolCalls maxIndex
  rw [length_foldl_applyToolCallDelta]
  cases ds with
  | nil => exact absurd rfl h'
  | cons d rest =>
    simp only [List.foldl_cons, List.map_cons, List.length_nil, Nat.zero_max]
    rw [← List.foldl_map ToolCallDelta.index (fun n x => max n (x + 1)) rest]
    exact foldl_max_succ (rest.map ToolCallDelta.index) d.index

lemma string_foldl_append (l : List String) : ∀ x y : String,
    l.foldl (· ++ ·) (x ++ y) = x ++ l.foldl (· ++ ·) y := by
  induction l with
  | nil => intro x y; rfl
  | cons a t ih =>
    intro x y
    simp only [List.foldl_cons]
    rw [String.append_assoc, ih]

lemma string_join_cons (a : String) (l : List String) :
    String.join (a :: l) = a ++ String.join l := by
  show l.foldl (· ++ ·) ("" ++ a) = a ++ String.join l
  rw [String.empty_append]
  conv_lhs => rw [← String.append_empty a]
  rw [string_foldl_append]
  rfl

lemma getLast?_getD_cons {α : Type} : ∀ (xs : List α) (x a : α),
    ((x :: xs).getLast?).getD a = (xs.getLast?).getD x
  | [], _, _ => rfl
  | y :: ys, x, a => by
    rw [List.getLast?_cons_cons, getLast?_getD_cons ys y a,
      getLast?_getD_cons ys y x]

lemma applyDeltaToEntry_eq (e : AccumulatedToolCall) (d : ToolCallDelta) :
    applyDeltaToEntry e d =
      { id := d.id.getD e.id,
        name := (d.function.bind FunctionCallDelta.name).getD e.name,
        arguments := e.arguments ++
          (d.function.bind FunctionCallDelta.arguments).getD "" } := by
  rcases d with ⟨idx, id?, fn?⟩
  rcases fn? with _ | ⟨n?, a?⟩
  · cases id? <;> simp [applyDeltaToEntry]
  · cases id? <;> cases n? <;> cases a? <;> simp [applyDeltaToEntry]

lemma foldl_applyDeltaToEntry (ds : List ToolCallDelta) :
    ∀ e : AccumulatedToolCall,
    ds.foldl applyDeltaToEntry e =
      { id := ((ds.filterMap ToolCallDelta.id).getLast?).getD e.id,
        name := ((ds.filterMap
          (fun d => d.function.bind FunctionCallDelta.name)).getLast?).getD e.name,
        arguments := e.arguments ++ String.join (ds.filterMap
          (fun d => d.function.bind FunctionCallDelta.arguments)) } := by
  induction ds with
  | nil =>
    intro e
    show e = _
    simp [String.join]
  | cons d rest ih =>
    intro e
    rw [List.foldl_cons, ih, applyDeltaToEntry_eq]
    have hid : ((List.filterMap ToolCallDelta.id (d :: rest)).getLast?).getD e.id
        = ((rest.filterMap ToolCallDelta.id).getLast?).getD (d.id.getD e.id) := by
      rw [List.filterMap_cons]
      cases d.id with
      | none => rfl
      | some i => rw [getLast?_getD_cons]; rfl
    have hname : ((List.filterMap
          (fun x => x.function.bind FunctionCallDelta.name) (d :: rest)).getLast?).getD e.name
        = ((rest.filterMap (fun x => x.function.bind FunctionCallDelta.name)).getLast?).getD
            ((d.function.bind FunctionCallDelta.name).getD e.name) := by
      rw [List.filterMap_cons]
      cases d.function.bind FunctionCallDelta.name with
      | none => rfl
      | some n => rw [getLast?_getD_cons]; rfl
    have hargs : e.arguments ++ String.join (List.filterMap
          (fun x => x.function.bind FunctionCallDelta.arguments) (d :: rest))
        = (e.arguments ++ (d.function.bind FunctionCallDelta.arguments).getD "") ++
            String.join (rest.filterMap
              (fun x => x.function.bind FunctionCallDelta.arguments)) := by
      rw [List.filterMap_cons]
      cases d.function.bind FunctionCallDelta.arguments with
      | none => rw [Option.getD_none, String.append_empty]
      | some a => rw [Option.getD_some, string_join_cons, String.append_assoc]
    rw [← hid, ← hname, ← hargs]

/-- **C1.** For every sequence of streamed tool-call deltas, the accumulated
tool-call list built by `chat_stream`'s merge (folding `applyToolCallDelta`
over the deltas in arrival order) has length `maxIndex + 1`, and the entry at
each index `i` carries the last id and last name delivered for `i` (empty
string if never delivered) and the concatenation, in arrival order, of every
arguments fragment delivered for `i`.  The result is thus a function of the
per-index field sequences alone and does not depend on any individual delta
being complete. -/
theorem C1_toolcall_delta_accumulation (ds : List ToolCallDelta)
    (h' : ds ≠ []) :
    (accumulateToolCalls ds).length = maxIndex ds + 1 ∧
    ∀ i < (accumulateToolCalls ds).length,
      (accumulateToolCalls ds).getD i default = specEntry ds i := by
  refine ⟨length_accumulateToolCalls ds h', fun i _ => ?_⟩
  unfold accumulateToolCalls
  rw [getD_foldl_applyToolCallDelta, foldl_applyDeltaToEntry]
  unfold specEntry idsFor namesFor fragmentsFor
  rfl

/-- Witness for C1 at a concrete delta sequence: two interleaved calls whose
fields arrive scattered over four deltas. -/
theorem C1_toolcall_delta_accumulation_witness :
    ([⟨0, some "a", none⟩,
      ⟨1, none, some ⟨some "calculator", some "ab"⟩⟩,
      ⟨1, none, some ⟨none, some "cd"⟩⟩,
      ⟨0, some "b", some ⟨some "shell", none⟩⟩] : List ToolCallDelta) ≠ [] ∧
    ((accumulateToolCalls [⟨0, some "a", none⟩,
      ⟨1, none, some ⟨some "calculator", some "ab"⟩⟩,
      ⟨1, none, some ⟨none, some "cd"⟩⟩,
      ⟨0, some "b", some ⟨some "shell", none⟩⟩]).length =
        maxIndex [⟨0, some "a", none⟩,
          ⟨1, none, some ⟨some "calculator", some "ab"⟩⟩,
          ⟨1, none, some ⟨none, some "cd"⟩⟩,
          ⟨0, some "b", some ⟨some "shell", none⟩⟩] + 1 ∧
    ∀ i < (accumulateToolCalls [⟨0, some "a", none⟩,
      ⟨1, none, some ⟨some "calculator", some "ab"⟩⟩,
      ⟨1, none, some ⟨none, some "cd"⟩⟩,
      ⟨0, some "b", some ⟨some "shell", none⟩⟩]).length,
      (accumulateToolCalls [⟨0, some "a", none⟩,
        ⟨1, none, some ⟨some "calculator", some "ab"⟩⟩,
        ⟨1, none, some ⟨none, some "cd"⟩⟩,
        ⟨0, some "b", some ⟨some "shell", none⟩⟩]).getD i default =
      specEntry [⟨0, some "a", none⟩,
        ⟨1, none, some ⟨some "calculator", some "ab"⟩⟩,
        ⟨1, none, some ⟨none, some "cd"⟩⟩,
        ⟨0, some "b", some ⟨some "shell", none⟩⟩] i) :=
  ⟨by decide, C1_toolcall_delta_accumulation _ (by decide)⟩

/-! ## Lemmas: download state tracking -/

/-- The post-condition the spec demands of a cleaned-up failed download. -/
def cleanedFor (modelId : String) (st : DlState) : Prop :=
  modelId ∉ st.dirs ∧ keyMem modelId st.activeDownloads = false ∧
    keyMem modelId st.downloadingProgress = false

lemma keyMem_removeKey (k : String) {α : Type} (m : List (String × α)) :
    keyMem k (removeKey k m) = false := by
  rw [keyMem, List.any_eq_false]
  intro p hp
  rw [removeKey, List.mem_filter] at hp
  simpa using hp.2

lemma cleanedFor_dlCleanup (modelId : String) (st : DlState) :
    cleanedFor modelId (dlCleanup modelId st) := by
  refine ⟨?_, keyMem_removeKey _ _, keyMem_removeKey _ _⟩
  intro hmem
  rw [dlCleanup] at hmem
  simp only [List.mem_filter] at hmem
  simpa using hmem.2

lemma downloadChunks_error_cleaned (modelId : String) (env : DlEnv)
    (totalBytes : Nat) : ∀ (chunks : List ChunkEv) (fd : Nat) (r : DlRun)
    (e : DlErr),
    (downloadChunks modelId env totalBytes chunks fd r).1 = .error e →
    (e = .cancelled ∨ ∃ s, e = .httpError s) →
    cleanedFor modelId (downloadChunks modelId env totalBytes chunks fd r).2.st := by
  intro chunks
  induction chunks with
  | nil =>
    intro fd r e h' _
    exact absurd h' (by simp [downloadChunks])
  | cons ce rest ih =>
    intro fd r e h' he
    simp only [downloadChunks] at h' ⊢
    by_cases hc : dlCancelledNow env r = true
    · rw [if_pos hc]
      exact cleanedFor_dlCleanup _ _
    · rw [if_neg hc] at h' ⊢
      rcases ce with ⟨size, writeErr⟩ | msg
      · rcases writeErr with _ | msg
        · exact ih _ _ _ h' he
        · rcases he with rfl | ⟨s, rfl⟩ <;> exact absurd h' (by simp)
      · rcases he with rfl | ⟨s, rfl⟩ <;> exact absurd h' (by simp)

lemma downloadFiles_error_cleaned (modelId : String) (env : DlEnv)
    (totalBytes : Nat) : ∀ (files : List (ModelFile × FileOutcome)) (r : DlRun)
    (e : DlErr),
    (downloadFiles modelId env totalBytes files r).1 = .error e →
    (e = .cancelled ∨ ∃ s, e = .httpError s) →
    cleanedFor modelId (downloadFiles modelId env totalBytes files r).2.st := by
  intro files
  induction files with
  | nil =>
    intro r e h' _
    exact absurd h' (by simp [downloadFiles])
  | cons fo rest ih =>
    intro r e h' he
    rw [downloadFiles] at h' ⊢
    by_cases hc : dlCancelledNow env r = true
    · rw [if_pos hc]
      exact cleanedFor_dlCleanup _ _
    · rw [if_neg hc] at h' ⊢
      rcases fo with ⟨f, out⟩
      rcases out with msg | ⟨okStatus, statusText, createErr, chunks, flushErr⟩
      · rcases he with rfl | ⟨s, rfl⟩ <;> exact absurd h' (by simp)
      · dsimp only at h' ⊢
        cases okStatus with
        | false =>
          rw [if_pos (show (!false) = true from rfl)]
          exact cleanedFor_dlCleanup _ _
        | true =>
          rw [if_neg (show ¬(!true) = true from by decide)] at h' ⊢
          rcases createErr with _ | msg
          · dsimp only at h' ⊢
            split at h'
            · rename_i X r' heq
              injection h' with h''
              subst h''
              have h1 := congrArg Prod.fst heq
              have h2 := congrArg (fun p => p.2.st) heq
              dsimp only at h2
              rw [← h2]
              exact downloadChunks_error_cleaned modelId env totalBytes
                chunks 0 _ X h1 he
            · rename_i r' heq
              rcases flushErr with _ | msg
              · exact ih _ _ h' he
              · rcases he with rfl | ⟨s, rfl⟩ <;> exact absurd h' (by simp)
          · rcases he with rfl | ⟨s, rfl⟩ <;> exact absurd h' (by simp)

/-- **C4 (counterexample).** A transport error on the `GET` (after the model
directory has been created) makes `download_model` return an error while the
model directory still exists and both `activeDownloads` and
`downloadingProgress` still hold the model id — contradicting the claim that
*every* failing cause leaves no partial directory or tracking entry. -/
theorem C4_transport_error_skips_cleanup :
    download_model
      { catalog := [⟨"m", ⟨"f.gguf", "u", 100⟩, none⟩],
        createDirErr := none, cancelAfter := none,
        fileOutcomes := fun _ => FileOutcome.getTransportError "connection reset" }
      "m" ⟨[], [], [], [], []⟩ =
    (.error (.transportError "connection reset"),
      ⟨[("m", false)], [("m", 0)], ["m"], ["u"], []⟩) := rfl

/-- **C4 (amended).** Whenever `download_model` returns an error caused by a
non-2xx response or by observed cancellation — the two failure paths the code
cleans up after — the model directory has been recursively deleted and the
model id removed from both `activeDownloads` and `downloadingProgress`.
(Transport, file-creation, chunk-read and write failures return without this
cleanup, as the counterexample shows.) -/
lemma downloadRun_error_cleaned (env : DlEnv) (modelId : String)
    (entry : CatalogEntry) (st : DlState) (e : DlErr)
    (h' : (downloadRun env modelId entry st).1 = .error e)
    (he : e = .cancelled ∨ ∃ s, e = .httpError s) :
    cleanedFor modelId (downloadRun env modelId entry st).2 := by
  rw [downloadRun] at h' ⊢
  split at h'
  · rename_i X r' heq
    injection h' with h''
    subst h''
    have h1 := congrArg Prod.fst heq
    have h2 := congrArg (fun p => p.2.st) heq
    dsimp only at h2
    rw [← h2]
    exact downloadFiles_error_cleaned modelId env _ _ _ X h1 he
  · rename_i r' heq
    exact absurd h' (by simp)

theorem C4_cleanup_on_http_error_or_cancel (env : DlEnv) (modelId : String)
    (st : DlState) (e : DlErr)
    (h' : (download_model env modelId st).1 = .error e)
    (he : e = .cancelled ∨ ∃ s, e = .httpError s) :
    cleanedFor modelId (download_model env modelId st).2 := by
  rw [download_model] at h' ⊢
  split at h'
  · rcases he with rfl | ⟨s, rfl⟩ <;> exact absurd h' (by simp)
  · rename_i entry hentry
    by_cases hdup : keyMem modelId st.activeDownloads
    · rw [if_pos hdup] at h' ⊢
      rcases he with rfl | ⟨s, rfl⟩ <;> exact absurd h' (by simp)
    · rw [if_neg hdup] at h' ⊢
      rcases hcd : env.createDirErr with _ | msg
      · rw [hcd] at h'
        exact downloadRun_error_cleaned env modelId entry _ e h' he
      · rw [hcd] at h'
        rcases he with rfl | ⟨s, rfl⟩ <;> exact absurd h' (by simp)

/-- Witness for the amended C4 at a concrete input: a 404 on the first file
of a one-file model. -/
theorem C4_cleanup_witness :
    (download_model
      { catalog := [⟨"m", ⟨"f.gguf", "u", 100⟩, none⟩],
        createDirErr := none, cancelAfter := none,
        fileOutcomes := fun _ => FileOutcome.httpResponse false "404" none [] none }
      "m" ⟨[], [], [], [], []⟩).1 =
      .error (.httpError "404") ∧
    cleanedFor "m"
      (download_model
        { catalog := [⟨"m", ⟨"f.gguf", "u", 100⟩, none⟩],
          createDirErr := none, cancelAfter := none,
          fileOutcomes := fun _ => FileOutcome.httpResponse false "404" none [] none }
        "m" ⟨[], [], [], [], []⟩).2 :=
  ⟨rfl, C4_cleanup_on_http_error_or_cancel _ "m" _ _ rfl (Or.inr ⟨"404", rfl⟩)⟩

/-! ## Lemmas: at most one download per model id -/

lemma keysNodup_removeKey (k : String) {α : Type} (m : List (String × α))
    (h' : (m.map Prod.fst).Nodup) : ((removeKey k m).map Prod.fst).Nodup :=
  h'.sublist ((List.filter_sublist _).map Prod.fst)

lemma keysNodup_setKey (k : String) {α : Type} (v : α) (m : List (String × α))
    (h' : (m.map Prod.fst).Nodup) : ((setKey k v m).map Prod.fst).Nodup := by
  rw [setKey, List.map_append]
  refine List.Nodup.append (keysNodup_removeKey k m h') (by simp) ?_
  intro a ha hb
  simp only [List.map_cons, List.map_nil, List.mem_singleton] at hb
  subst hb
  obtain ⟨p, hp, rfl⟩ := List.mem_map.mp ha
  rw [removeKey, List.mem_filter] at hp
  simpa using hp.2

lemma dlCleanup_activeDownloads (modelId : String) (st : DlState) :
    (dlCleanup modelId st).activeDownloads = removeKey modelId st.activeDownloads :=
  rfl

lemma downloadChunks_keysNodup (modelId : String) (env : DlEnv)
    (totalBytes : Nat) : ∀ (chunks : List ChunkEv) (fd : Nat) (r : DlRun),
    (r.st.activeDownloads.map Prod.fst).Nodup →
    (((downloadChunks modelId env totalBytes chunks fd r).2.st.activeDownloads).map
      Prod.fst).Nodup := by
  intro chunks
  induction chunks with
  | nil => intro fd r h'; exact h'
  | cons ce rest ih =>
    intro fd r h'
    simp only [downloadChunks]
    by_cases hc : dlCancelledNow env r = true
    · rw [if_pos hc]
      exact keysNodup_removeKey _ _ h'
    · rw [if_neg hc]
      rcases ce with ⟨size, writeErr⟩ | msg
      · rcases writeErr with _ | msg
        · exact ih _ _ h'
        · exact h'
      · exact h'

lemma downloadFiles_keysNodup (modelId : String) (env : DlEnv)
    (totalBytes : Nat) : ∀ (files : List (ModelFile × FileOutcome)) (r : DlRun),
    (r.st.activeDownloads.map Prod.fst).Nodup →
    (((downloadFiles modelId env totalBytes files r).2.st.activeDownloads).map
      Prod.fst).Nodup := by
  intro files
  induction files with
  | nil => intro r h'; exact h'
  | cons fo rest ih =>
    intro r h'
    rw [downloadFiles]
    by_cases hc : dlCancelledNow env r = true
    · rw [if_pos hc]
      exact keysNodup_removeKey _ _ h'
    · rw [if_neg hc]
      rcases fo with ⟨f, out⟩
      rcases out with msg | ⟨okStatus, statusText, createErr, chunks, flushErr⟩
      · exact h'
      · dsimp only
        cases okStatus with
        | false =>
          rw [if_pos (show (!false) = true from rfl)]
          exact keysNodup_removeKey _ _ h'
        | true =>
          rw [if_neg (show ¬(!true) = true from by decide)]
          rcases createErr with _ | msg
          · dsimp only
            split
            · rename_i X r' heq
              have h2 := congrArg (fun p => p.2.st) heq
              dsimp only at h2
              rw [← h2]
              exact downloadChunks_keysNodup modelId env totalBytes chunks 0 _ h'
            · rename_i r' heq
              have h2 := congrArg (fun p => p.2.st) heq
              dsimp only at h2
              have hr' : (r'.st.activeDownloads.map Prod.fst).Nodup := by
                rw [← h2]
                exact downloadChunks_keysNodup modelId env totalBytes chunks 0 _ h'
              rcases flushErr with _ | msg
              · exact ih r' hr'
              · exact hr'
          · exact h'

lemma downloadRun_keysNodup (env : DlEnv) (modelId : String)
    (entry : CatalogEntry) (st : DlState)
    (h' : (st.activeDownloads.map Prod.fst).Nodup) :
    (((downloadRun env modelId entry st).2.activeDownloads).map Prod.fst).Nodup := by
  rw [downloadRun]
  dsimp only
  split
  · rename_i X r' heq
    have h2 := congrArg (fun p => p.2.st) heq
    dsimp only at h2
    rw [← h2]
    exact downloadFiles_keysNodup modelId env _ _ _ h'
  · rename_i r' heq
    have h2 := congrArg (fun p => p.2.st) heq
    dsimp only at h2
    have hr' : (r'.st.activeDownloads.map Prod.fst).Nodup := by
      rw [← h2]
      exact downloadFiles_keysNodup modelId env _ _ _ h'
    exact keysNodup_removeKey _ _ hr'

/-- **C7.** A `download_model` call whose model id is already a key of
`activeDownloads` returns an error with the state unchanged: no token
registered, no progress entry touched, no directory created, no `GET` issued
(the catalog lookup that precedes the guard reads but does not mutate).
Moreover every `download_model` call preserves distinctness of the
`activeDownloads` keys: the only insertion is guarded by absence, so a model
id appears at most once. -/
theorem C7_duplicate_download_rejected (env : DlEnv) (modelId : String)
    (st : DlState) :
    (keyMem modelId st.activeDownloads = true →
      (∃ e, (download_model env modelId st).1 = .error e) ∧
      (download_model env modelId st).2 = st) ∧
    ((st.activeDownloads.map Prod.fst).Nodup →
      (((download_model env modelId st).2.activeDownloads).map Prod.fst).Nodup) := by
  constructor
  · intro hdup
    rw [download_model]
    cases hf : env.catalog.find? (fun e => e.id == modelId) with
    | none => exact ⟨⟨.notFoundInCatalog modelId, rfl⟩, rfl⟩
    | some entry =>
      dsimp only
      rw [if_pos hdup]
      exact ⟨⟨.alreadyDownloading, rfl⟩, rfl⟩
  · intro hnd
    rw [download_model]
    cases hf : env.catalog.find? (fun e => e.id == modelId) with
    | none => exact hnd
    | some entry =>
      dsimp only
      by_cases hdup : keyMem modelId st.activeDownloads = true
      · rw [if_pos hdup]
        exact hnd
      · rw [if_neg hdup]
        rcases hcd : env.createDirErr with _ | msg
        · exact downloadRun_keysNodup env modelId entry _
            (keysNodup_setKey modelId false st.activeDownloads hnd)
        · exact keysNodup_setKey modelId false st.activeDownloads hnd

/-- Witness for C7: a duplicate request for `"m"` while `"m"` is downloading
is rejected without touching the state, and key-distinctness is preserved. -/
theorem C7_duplicate_download_rejected_witness :
    ((keyMem "m" ([("m", false)] : List (String × Bool)) = true) ∧
      (∃ e, (download_model
        { catalog := [⟨"m", ⟨"f.gguf", "u", 100⟩, none⟩],
          createDirErr := none, cancelAfter := none,
          fileOutcomes := fun _ => FileOutcome.getTransportError "x" } "m"
        ⟨[("m", false)], [("m", 0)], ["m"], [], []⟩).1 = .error e) ∧
      (download_model
        { catalog := [⟨"m", ⟨"f.gguf", "u", 100⟩, none⟩],
          createDirErr := none, cancelAfter := none,
          fileOutcomes := fun _ => FileOutcome.getTransportError "x" } "m"
        ⟨[("m", false)], [("m", 0)], ["m"], [], []⟩).2 =
        ⟨[("m", false)], [("m", 0)], ["m"], [], []⟩) :=
  ⟨by decide,
    (C7_duplicate_download_rejected _ "m" _).1 (by decide)⟩

/-- **C10.** `cancel_download` with a model id absent from `activeDownloads`
returns `Ok` and leaves the state exactly as it was: no token is created or
set, and neither map changes. -/
theorem C10_cancel_download_absent_id (modelId : String) (st : DlState)
    (h' : keyMem modelId st.activeDownloads = false) :
    cancel_download modelId st = (.ok (), st) := by
  rw [cancel_download]
  have hf : st.activeDownloads.find? (fun p => p.1 == modelId) = none := by
    rw [List.find?_eq_none]
    intro p hp hpb
    rw [keyMem, List.any_eq_false] at h'
    exact h' p hp hpb
  rw [hf]

/-- Witness for C10: cancelling an id that is not downloading while another
download is active. -/
theorem C10_cancel_download_absent_id_witness :
    keyMem "x" (DlState.activeDownloads ⟨[("m", false)], [("m", 0)], ["m"], [], []⟩) = false ∧
    cancel_download "x" ⟨[("m", false)], [("m", 0)], ["m"], [], []⟩ =
      (.ok (), ⟨[("m", false)], [("m", 0)], ["m"], [], []⟩) :=
  ⟨by decide, C10_cancel_download_absent_id "x" _ (by decide)⟩

/-- **C6.** If `switch_model` targets a model whose paths resolve but whose
spawn fails, then on return the readiness flag is `false`, `currentModelId`
records the targeted id, a `model:switching{status:error}` event was emitted,
and the call returns the spawn error; and a subsequent `switch_model` to a
model that resolves, spawns and becomes ready succeeds from that state with
readiness restored. -/
theorem C6_switch_spawn_failure (env env₂ : SwitchEnv)
    (modelY modelX mp mpX : String) (mmp mmpX : Option String)
    (errMsg : String) (child : Nat) (st : SrvState)
    (hres : resolveModelPaths env modelY = .ok (mp, mmp))
    (hsc : env.sidecarErr = none)
    (hsp : env.spawnResult = .error errMsg)
    (hres₂ : resolveModelPaths env₂ modelX = .ok (mpX, mmpX))
    (hsc₂ : env₂.sidecarErr = none)
    (hsp₂ : env₂.spawnResult = .ok child)
    (hrd₂ : env₂.readyErr = none) :
    (switch_model env modelY st).1 = .error (.spawnFailed errMsg) ∧
    (switch_model env modelY st).2.is_ready = false ∧
    (switch_model env modelY st).2.current_model_id = some modelY ∧
    SwitchEvent.switching modelY "error"
        (some ("Failed to spawn llama-server: " ++ errMsg)) ∈
      (switch_model env modelY st).2.emitted ∧
    (switch_model env₂ modelX (switch_model env modelY st).2).1 = .ok () ∧
    (switch_model env₂ modelX (switch_model env modelY st).2).2.is_ready = true := by
  have hrun : ∀ st' : SrvState, switch_model env modelY st' =
      (.error (.spawnFailed errMsg),
        ⟨none, false, mp, mmp, some modelY,
          st'.emitted ++
            [SwitchEvent.switching modelY "stopping" none,
             SwitchEvent.switching modelY "starting" none,
             SwitchEvent.switching modelY "error"
               (some ("Failed to spawn llama-server: " ++ errMsg))]⟩) := by
    intro st'
    rw [switch_model, hres, hsc, hsp]
    simp [emitSwitch]
  have hrun₂ : ∀ st' : SrvState, (switch_model env₂ modelX st').1 = .ok () ∧
      (switch_model env₂ modelX st').2.is_ready = true := by
    intro st'
    rw [switch_model, hres₂, hsc₂, hsp₂, hrd₂]
    exact ⟨rfl, rfl⟩
  refine ⟨?_, ?_, ?_, ?_, (hrun₂ _).1, (hrun₂ _).2⟩
  · rw [hrun st]
  · rw [hrun st]
  · rw [hrun st]
  · rw [hrun st]
    simp

/-- Witness for C6: spawn of `"y"` fails with the binary missing, then a
switch back to `"x"` succeeds. -/
theorem C6_switch_spawn_failure_witness :
    resolveModelPaths
        { catalogIds := ["x", "y"], legacyScan := none,
          resolvePaths := fun i =>
            if i == "y" then some ("/m/y.gguf", none)
            else if i == "x" then some ("/m/x.gguf", none) else none,
          sidecarErr := none, spawnResult := .error "exec missing",
          readyErr := none } "y" = .ok ("/m/y.gguf", none) ∧
    (switch_model
        { catalogIds := ["x", "y"], legacyScan := none,
          resolvePaths := fun i =>
            if i == "y" then some ("/m/y.gguf", none)
            else if i == "x" then some ("/m/x.gguf", none) else none,
          sidecarErr := none, spawnResult := .error "exec missing",
          readyErr := none } "y"
        ⟨some 1, true, "/m/x.gguf", none, some "x", []⟩).1 =
      .error (.spawnFailed "exec missing") ∧
    (switch_model
        { catalogIds := ["x", "y"], legacyScan := none,
          resolvePaths := fun i =>
            if i == "y" then some ("/m/y.gguf", none)
            else if i == "x" then some ("/m/x.gguf", none) else none,
          sidecarErr := none, spawnResult := .error "exec missing",
          readyErr := none } "y"
        ⟨some 1, true, "/m/x.gguf", none, some "x", []⟩).2.is_ready = false ∧
    (switch_model
        { catalogIds := ["x", "y"], legacyScan := none,
          resolvePaths := fun i =>
            if i == "y" then some ("/m/y.gguf", none)
            else if i == "x" then some ("/m/x.gguf", none) else none,
          sidecarErr := none, spawnResult := .ok 2,
          readyErr := none } "x"
        (switch_model
          { catalogIds := ["x", "y"], legacyScan := none,
            resolvePaths := fun i =>
              if i == "y" then some ("/m/y.gguf", none)
              else if i == "x" then some ("/m/x.gguf", none) else none,
            sidecarErr := none, spawnResult := .error "exec missing",
            readyErr := none } "y"
          ⟨some 1, true, "/m/x.gguf", none, some "x", []⟩).2).2.is_ready = true := by
  have h := C6_switch_spawn_failure
    { catalogIds := ["x", "y"], legacyScan := none,
      resolvePaths := fun i =>
        if i == "y" then some ("/m/y.gguf", none)
        else if i == "x" then some ("/m/x.gguf", none) else none,
      sidecarErr := none, spawnResult := .error "exec missing",
      readyErr := none }
    { catalogIds := ["x", "y"], legacyScan := none,
      resolvePaths := fun i =>
        if i == "y" then some ("/m/y.gguf", none)
        else if i == "x" then some ("/m/x.gguf", none) else none,
      sidecarErr := none, spawnResult := .ok 2,
      readyErr := none }
    "y" "x" "/m/y.gguf" "/m/x.gguf" none none "exec missing" 2
    ⟨some 1, true, "/m/x.gguf", none, some "x", []⟩
    rfl rfl rfl rfl rfl rfl rfl
  exact ⟨rfl, h.1, h.2.1, h.2.2.2.2.2⟩

/-- **C8.** Persisting a message with an empty image list and reloading the
chat yields that message with an empty image list: the stored `images` column
round-trips through the JSON serialiser and parser (`"[]"` parses back to
`some []`, so the fallback is not even needed). -/
theorem C8_empty_images_roundtrip (db : List DbRow)
    (chatId role content thinking : String) (dur : Option Int) :
    get_chat_messages chatId
        (insert_message db chatId role content thinking [] dur) =
      get_chat_messages chatId db ++ [⟨role, content, thinking, [], dur⟩] ∧
    jsonDecodeStringList (jsonEncodeStringList []) = some [] := by
  refine ⟨?_, rfl⟩
  rw [insert_message, get_chat_messages, get_chat_messages,
    List.filter_append, List.map_append]
  congr 1
  rw [List.filter_cons]
  simp only [beq_self_eq_true, if_true, List.filter_nil, List.map_cons,
    List.map_nil]
  rfl

/-! ## Lemmas: cancellation and event delivery in `chat_stream` -/

lemma cancelledNow_of_set (cancelAfter : Option Nat) (s : TurnState) (t : Nat)
    (h1 : cancelAfter = some t) (h2 : t ≤ s.checksDone) :
    cancelledNow cancelAfter s = true := by
  subst h1
  rw [cancelledNow]
  exact decide_eq_true h2

/-- **C5 (counterexample).** With an empty event stream, `chat_stream`
returns `Ok` when every emission is delivered but an error when deliveries
fail: the `chat:begin` emission's failure is propagated with `?`
(streaming.rs line 186), so the result *does* depend on event delivery. -/
theorem C5_emit_failure_changes_result :
    (chat_stream
      { streams := fun _ => [], cancelAfter := none,
        toolResults := fun _ => ⟨true, "", none⟩ }
      (fun _ => true) "c" "p" [] [] "sys").1 =
      .ok (chat_stream
        { streams := fun _ => [], cancelAfter := none,
          toolResults := fun _ => ⟨true, "", none⟩ }
        (fun _ => true) "c" "p" [] [] "sys").2 ∧
    (chat_stream
      { streams := fun _ => [], cancelAfter := none,
        toolResults := fun _ => ⟨true, "", none⟩ }
      (fun _ => false) "c" "p" [] [] "sys").1 = .error .beginEmitFailed :=
  ⟨rfl, rfl⟩

/-- **C5 (amended).** `chat_stream`'s result depends on event delivery only
through the outcomes of the `chat:begin` emission (emission 0) and the
`chat:end` emission (emission `endEmitIndex`), whose failures are propagated
with `?`; the outcomes of every other emission (`chat:delta`,
`tool:calling`, `tool:result`, `chats:changed`) are discarded by the source
(`let _ = app.emit(..)`) and never reach the loop state, so any two delivery
oracles that agree at those two emissions yield identical results.  The
download and switch commands never consult a delivery outcome at all. -/
theorem C5_result_depends_only_on_begin_end (env : ChatEnv)
    (ok₁ ok₂ : Nat → Bool) (chatId prompt systemPrompt : String)
    (images : List String) (history : List (String × String × List String))
    (h0 : ok₁ 0 = ok₂ 0)
    (hend : ok₁ (endEmitIndex env chatId prompt images history systemPrompt) =
      ok₂ (endEmitIndex env chatId prompt images history systemPrompt)) :
    chat_stream env ok₁ chatId prompt images history systemPrompt =
      chat_stream env ok₂ chatId prompt images history systemPrompt := by
  rw [chat_stream, chat_stream]
  dsimp only
  rw [show ok₁ (chatInitState prompt images history systemPrompt).emitCount =
    ok₂ (chatInitState prompt images history systemPrompt).emitCount from h0]
  rw [show ok₁ ((runIterations env chatId 0 MAX_TOOL_ITERATIONS
      (recordEmit (.chatBegin chatId)
        (chatInitState prompt images history systemPrompt))).emitCount) =
    ok₂ ((runIterations env chatId 0 MAX_TOOL_ITERATIONS
      (recordEmit (.chatBegin chatId)
        (chatInitState prompt images history systemPrompt))).emitCount) from hend]

/-- Witness for the amended C5: two oracles that agree at the `chat:begin`
and `chat:end` emissions but disagree at the `chat:delta` emission in
between yield the same result. -/
theorem C5_result_depends_only_on_begin_end_witness :
    ((fun _ => true) : Nat → Bool) 0 = (fun n => n == 0 || n == 2) 0 ∧
    chat_stream
        { streams := fun _ => [SSEEvent.message (.payload (some
            ⟨[⟨⟨some "hi", none, none⟩⟩]⟩)), SSEEvent.message .done],
          cancelAfter := none, toolResults := fun _ => ⟨true, "", none⟩ }
        (fun _ => true) "c" "p" [] [] "sys" =
      chat_stream
        { streams := fun _ => [SSEEvent.message (.payload (some
            ⟨[⟨⟨some "hi", none, none⟩⟩]⟩)), SSEEvent.message .done],
          cancelAfter := none, toolResults := fun _ => ⟨true, "", none⟩ }
        (fun n => n == 0 || n == 2) "c" "p" [] [] "sys" :=
  ⟨rfl, C5_result_depends_only_on_begin_end _ _ _ "c" "p" "sys" [] []
    rfl (by decide)⟩

/-- **C2 (counterexample).** With the cancellation flag becoming set at the
third check — observed mid-stream, after one tool-call delta has been
accumulated but before the stream ends — `chat_stream` still executes the
accumulated tool call: the trace contains `tool:calling` and `tool:result`
events after the cancellation was observed, a `ToolResult` message is
appended, and the tool executor runs; only the *next* completion request is
suppressed (`requests = 1`). -/
theorem C2_cancel_still_executes_accumulated_tools :
    (chat_stream
      { streams := fun _ => [
          SSEEvent.message (.payload (some ⟨[⟨⟨none, none,
            some [⟨0, some "id1", some ⟨some "calculator", some "{}"⟩⟩]⟩⟩]⟩)),
          SSEEvent.message (.payload (some ⟨[⟨⟨some "x", none, none⟩⟩]⟩))],
        cancelAfter := some 2,
        toolResults := fun _ => ⟨true, "4", none⟩ }
      (fun _ => true) "c" "p" [] [] "sys").2.emitted =
      [UIEvent.chatBegin "c",
       UIEvent.toolCalling "c" "calculator" "calculator" "id1" "{}",
       UIEvent.toolResult "c" "id1" "calculator" true "4" none,
       UIEvent.chatEnd "c", UIEvent.chatsChanged] ∧
    (chat_stream
      { streams := fun _ => [
          SSEEvent.message (.payload (some ⟨[⟨⟨none, none,
            some [⟨0, some "id1", some ⟨some "calculator", some "{}"⟩⟩]⟩⟩]⟩)),
          SSEEvent.message (.payload (some ⟨[⟨⟨some "x", none, none⟩⟩]⟩))],
        cancelAfter := some 2,
        toolResults := fun _ => ⟨true, "4", none⟩ }
      (fun _ => true) "c" "p" [] [] "sys").2.requests = 1 ∧
    (chat_stream
      { streams := fun _ => [
          SSEEvent.message (.payload (some ⟨[⟨⟨none, none,
            some [⟨0, some "id1", some ⟨some "calculator", some "{}"⟩⟩]⟩⟩]⟩)),
          SSEEvent.message (.payload (some ⟨[⟨⟨some "x", none, none⟩⟩]⟩))],
        cancelAfter := some 2,
        toolResults := fun _ => ⟨true, "4", none⟩ }
      (fun _ => true) "c" "p" [] [] "sys").2.conversation.getLast? =
      some (ConversationMessage.toolResult "id1" "4") :=
  ⟨rfl, rfl, rfl⟩

/-- **C2 (amended).** Once the cancellation flag is set, the stream is closed
at the very next event check without processing the event (the accumulators
and state are returned as they are, one check consumed), and the tool-calling
loop issues no further completion request: at the top of the next iteration
the flag check terminates the loop with no request, no tool execution, no
event and no message append.  However — as the counterexample records — tool
calls already accumulated in the interrupted iteration are still executed
before the loop top is reached. -/
theorem C2_cancel_closes_stream_and_stops_requests (env : ChatEnv)
    (chatId : String) (t : Nat) (e : SSEEvent) (rest : List SSEEvent)
    (acc : IterAcc) (s : TurnState) (iter fuel : Nat)
    (h1 : env.cancelAfter = some t) (h2 : t ≤ s.checksDone)
    (hf : 0 < fuel) :
    processEvents env.cancelAfter chatId (e :: rest) acc s = (acc, noteCheck s) ∧
    runIterations env chatId iter fuel s = noteCheck s := by
  constructor
  · simp only [processEvents]
    rw [cancelledNow_of_set env.cancelAfter s t h1 h2, if_pos rfl]
  · cases fuel with
    | zero => exact absurd hf (by simp)
    | succ n =>
      rw [runIterations, cancelledNow_of_set env.cancelAfter s t h1 h2, if_pos rfl]

/-- Witness for the amended C2 at a concrete cancelled state. -/
theorem C2_cancel_closes_stream_and_stops_requests_witness :
    (({ streams := fun _ => [], cancelAfter := some 0,
        toolResults := fun _ => ⟨true, "", none⟩ } : ChatEnv).cancelAfter =
      some 0) ∧
    (0 ≤ (chatInitState "p" [] [] "sys").checksDone) ∧ (0 < 1) ∧
    (processEvents
        (({ streams := fun _ => [], cancelAfter := some 0,
            toolResults := fun _ => ⟨true, "", none⟩ } : ChatEnv).cancelAfter) "c"
        [SSEEvent.opened] ⟨"", "", []⟩ (chatInitState "p" [] [] "sys") =
      (⟨"", "", []⟩, noteCheck (chatInitState "p" [] [] "sys")) ∧
    runIterations
        { streams := fun _ => [], cancelAfter := some 0,
          toolResults := fun _ => ⟨true, "", none⟩ } "c" 0 1
        (chatInitState "p" [] [] "sys") =
      noteCheck (chatInitState "p" [] [] "sys")) :=
  ⟨rfl, by decide, by decide,
    C2_cancel_closes_stream_and_stops_requests _ "c" 0 .opened [] ⟨"", "", []⟩
      _ 0 1 rfl (by decide) (by decide)⟩

/-! ## Lemmas: the streaming loop as a pure function of its events -/

lemma cancelledNow_none (s : TurnState) : cancelledNow none s = false := rfl

lemma not_cancelled_none (s : TurnState) : ¬ cancelledNow none s = true := by
  rw [cancelledNow_none]
  simp

/-- With no cancellation, the tool calls accumulated by the event loop are
exactly the fold of the deltas the loop's control flow delivers. -/
lemma processEvents_toolCalls (chatId : String) :
    ∀ (events : List SSEEvent) (acc : IterAcc) (s : TurnState),
    (processEvents none chatId events acc s).1.toolCalls =
      (processedToolDeltas events).foldl applyToolCallDelta acc.toolCalls := by
  intro events
  induction events with
  | nil => intro acc s; rfl
  | cons e rest ih =>
    intro acc s
    cases e with
    | opened => exact ih acc (noteCheck s)
    | errored => rfl
    | message md =>
      cases md with
      | done => rfl
      | payload p =>
        cases p with
        | none => exact ih acc (noteCheck s)
        | some resp =>
          simp only [processEvents, processedToolDeltas]
          rw [if_neg (not_cancelled_none s)]
          cases hh : resp.choices.head? with
          | none => exact ih acc (noteCheck s)
          | some choice =>
            dsimp only
            rw [ih]
            rw [List.foldl_append]
            congr 1
            cases htc : choice.delta.tool_calls with
            | none =>
              dsimp only
              split <;> split <;> rfl
            | some ds =>
              dsimp only
              congr 1
              split <;> split <;> rfl

/-- The event loop touches neither the persisted-message log nor the request
counter. -/
lemma processEvents_frame (cancelAfter : Option Nat) (chatId : String) :
    ∀ (events : List SSEEvent) (acc : IterAcc) (s : TurnState),
    (processEvents cancelAfter chatId events acc s).2.saved = s.saved ∧
    (processEvents cancelAfter chatId events acc s).2.requests = s.requests := by
  intro events
  induction events with
  | nil => intro acc s; exact ⟨rfl, rfl⟩
  | cons e rest ih =>
    intro acc s
    simp only [processEvents]
    by_cases hcn : cancelledNow cancelAfter s = true
    · rw [if_pos hcn]; exact ⟨rfl, rfl⟩
    · rw [if_neg hcn]
      cases e with
      | opened => exact ih acc (noteCheck s)
      | errored => exact ⟨rfl, rfl⟩
      | message md =>
        cases md with
        | done => exact ⟨rfl, rfl⟩
        | payload p =>
          cases p with
          | none => exact ih acc (noteCheck s)
          | some resp =>
            dsimp only
            cases hh : resp.choices.head? with
            | none => exact ih acc (noteCheck s)
            | some choice =>
              dsimp only
              constructor
              · rw [(ih _ _).1]
                split <;> split <;> split <;> rfl
              · rw [(ih _ _).2]
                split <;> split <;> split <;> rfl

/-- Tool execution touches neither the persisted-message log nor the request
counter. -/
lemma execToolCalls_frame (toolResults : Nat → ToolCallResult)
    (chatId : String) : ∀ (tcs : List AccumulatedToolCall) (s : TurnState),
    (execToolCalls toolResults chatId tcs s).saved = s.saved ∧
    (execToolCalls toolResults chatId tcs s).requests = s.requests := by
  intro tcs
  induction tcs with
  | nil => intro s; exact ⟨rfl, rfl⟩
  | cons tc rest ih => intro s; exact ih _

/-- With no cancellation and every streamed iteration accumulating at least
one tool call, the loop runs through all its fuel, issuing one completion
request per iteration and never touching the persisted-message log. -/
lemma runIterations_run_all (env : ChatEnv) (chatId : String)
    (hc : env.cancelAfter = none)
    (ht : ∀ k, streamToolCalls (env.streams k) ≠ []) :
    ∀ (fuel iter : Nat) (s : TurnState),
    (runIterations env chatId iter fuel s).requests = s.requests + fuel ∧
    (runIterations env chatId iter fuel s).saved = s.saved := by
  intro fuel
  induction fuel with
  | zero => intro iter s; exact ⟨rfl, rfl⟩
  | succ n ih =>
    intro iter s
    rw [runIterations, hc, cancelledNow_none, if_neg (by simp)]
    dsimp only
    have h1 := processEvents_toolCalls chatId (env.streams iter) ⟨"", "", []⟩
      { noteCheck s with requests := (noteCheck s).requests + 1 }
    have hne : ¬ (processEvents none chatId (env.streams iter) ⟨"", "", []⟩
        { noteCheck s with requests := (noteCheck s).requests + 1 }).1.toolCalls.isEmpty = true := by
      rw [List.isEmpty_iff, h1]
      exact ht iter
    rw [if_neg hne]
    constructor
    · rw [(ih (iter + 1) _).1]
      rw [(execToolCalls_frame _ _ _ _).2]
      dsimp only
      rw [(processEvents_frame _ _ _ _ _).2]
      show s.requests + 1 + n = s.requests + (n + 1)
      omega
    · rw [(ih (iter + 1) _).2]
      rw [(execToolCalls_frame _ _ _ _).1]
      dsimp only
      rw [(processEvents_frame _ _ _ _ _).1]
      rfl

/-- With no cancellation and an iteration whose stream accumulates no tool
call, one pass of the loop breaks immediately after that stream. -/
lemma runIterations_break (env : ChatEnv) (chatId : String) (iter n : Nat)
    (s : TurnState) (hc : env.cancelAfter = none)
    (hempty : streamToolCalls (env.streams iter) = []) :
    runIterations env chatId iter (n + 1) s =
      (processEvents none chatId (env.streams iter) ⟨"", "", []⟩
        { noteCheck s with requests := (noteCheck s).requests + 1 }).2 := by
  rw [runIterations, hc, cancelledNow_none, if_neg (by simp)]
  dsimp only
  have h1 := processEvents_toolCalls chatId (env.streams iter) ⟨"", "", []⟩
    { noteCheck s with requests := (noteCheck s).requests + 1 }
  have hemp : (processEvents none chatId (env.streams iter) ⟨"", "", []⟩
      { noteCheck s with requests := (noteCheck s).requests + 1 }).1.toolCalls.isEmpty = true := by
    rw [List.isEmpty_iff, h1]
    exact hempty
  rw [if_pos hemp]

/-- **C3.** With no cancellation and every streamed iteration accumulating a
non-empty tool-call list, the tool-calling loop performs exactly
`MAX_TOOL_ITERATIONS = 10` iterations — one completion request each — and
`chat_stream` still returns `Ok` (given nominal event delivery) and persists
exactly the user message followed by one assistant message carrying the
accumulated text: running out of iterations is not an error. -/
theorem C3_ten_iterations_then_ok (env : ChatEnv) (emitOk : Nat → Bool)
    (chatId prompt systemPrompt : String) (images : List String)
    (history : List (String × String × List String))
    (hc : env.cancelAfter = none)
    (he : ∀ n, emitOk n = true)
    (ht : ∀ k, streamToolCalls (env.streams k) ≠ []) :
    (chat_stream env emitOk chatId prompt images history systemPrompt).1 =
      .ok (chat_stream env emitOk chatId prompt images history systemPrompt).2 ∧
    (chat_stream env emitOk chatId prompt images history systemPrompt).2.requests = 10 ∧
    (chat_stream env emitOk chatId prompt images history systemPrompt).2.saved =
      [⟨"user", prompt, "", images, false⟩,
       ⟨"assistant",
        (chat_stream env emitOk chatId prompt images history systemPrompt).2.fullContent,
        (chat_stream env emitOk chatId prompt images history systemPrompt).2.fullThinking,
        [], true⟩] := by
  have hx := runIterations_run_all env chatId hc ht MAX_TOOL_ITERATIONS 0
    (recordEmit (.chatBegin chatId) (chatInitState prompt images history systemPrompt))
  refine ⟨?_, ?_, ?_⟩ <;>
    (rw [chat_stream]; dsimp only; simp only [he];
     rw [if_neg (by simp), if_neg (by simp)])
  · show (runIterations env chatId 0 MAX_TOOL_ITERATIONS
      (recordEmit (.chatBegin chatId)
        (chatInitState prompt images history systemPrompt))).requests = 10
    rw [hx.1]
    rfl
  · show (runIterations env chatId 0 MAX_TOOL_ITERATIONS
        (recordEmit (.chatBegin chatId)
          (chatInitState prompt images history systemPrompt))).saved ++
      [⟨"assistant",
        (runIterations env chatId 0 MAX_TOOL_ITERATIONS
          (recordEmit (.chatBegin chatId)
            (chatInitState prompt images history systemPrompt))).fullContent,
        (runIterations env chatId 0 MAX_TOOL_ITERATIONS
          (recordEmit (.chatBegin chatId)
            (chatInitState prompt images history systemPrompt))).fullThinking,
        [], true⟩] =
      [⟨"user", prompt, "", images, false⟩,
       ⟨"assistant",
        (runIterations env chatId 0 MAX_TOOL_ITERATIONS
          (recordEmit (.chatBegin chatId)
            (chatInitState prompt images history systemPrompt))).fullContent,
        (runIterations env chatId 0 MAX_TOOL_ITERATIONS
          (recordEmit (.chatBegin chatId)
            (chatInitState prompt images history systemPrompt))).fullThinking,
        [], true⟩]
    rw [hx.2]
    rfl

/-- Witness for C3 at a concrete environment whose every streamed iteration
delivers one complete tool call. -/
theorem C3_ten_iterations_then_ok_witness :
    (chat_stream
      { streams := fun _ => [SSEEvent.message (.payload (some
          ⟨[⟨⟨none, none, some [⟨0, some "i", some ⟨some "t", some "{}"⟩⟩]⟩⟩]⟩)),
          SSEEvent.message .done],
        cancelAfter := none, toolResults := fun _ => ⟨true, "ok", none⟩ }
      (fun _ => true) "c" "p" [] [] "sys").1 =
      .ok (chat_stream
        { streams := fun _ => [SSEEvent.message (.payload (some
            ⟨[⟨⟨none, none, some [⟨0, some "i", some ⟨some "t", some "{}"⟩⟩]⟩⟩]⟩)),
            SSEEvent.message .done],
          cancelAfter := none, toolResults := fun _ => ⟨true, "ok", none⟩ }
        (fun _ => true) "c" "p" [] [] "sys").2 ∧
    (chat_stream
      { streams := fun _ => [SSEEvent.message (.payload (some
          ⟨[⟨⟨none, none, some [⟨0, some "i", some ⟨some "t", some "{}"⟩⟩]⟩⟩]⟩)),
          SSEEvent.message .done],
        cancelAfter := none, toolResults := fun _ => ⟨true, "ok", none⟩ }
      (fun _ => true) "c" "p" [] [] "sys").2.requests = 10 ∧
    (chat_stream
      { streams := fun _ => [SSEEvent.message (.payload (some
          ⟨[⟨⟨none, none, some [⟨0, some "i", some ⟨some "t", some "{}"⟩⟩]⟩⟩]⟩)),
          SSEEvent.message .done],
        cancelAfter := none, toolResults := fun _ => ⟨true, "ok", none⟩ }
      (fun _ => true) "c" "p" [] [] "sys").2.saved =
      [⟨"user", "p", "", [], false⟩,
       ⟨"assistant",
        (chat_stream
          { streams := fun _ => [SSEEvent.message (.payload (some
              ⟨[⟨⟨none, none, some [⟨0, some "i", some ⟨some "t", some "{}"⟩⟩]⟩⟩]⟩)),
              SSEEvent.message .done],
            cancelAfter := none, toolResults := fun _ => ⟨true, "ok", none⟩ }
          (fun _ => true) "c" "p" [] [] "sys").2.fullContent,
        (chat_stream
          { streams := fun _ => [SSEEvent.message (.payload (some
              ⟨[⟨⟨none, none, some [⟨0, some "i", some ⟨some "t", some "{}"⟩⟩]⟩⟩]⟩)),
              SSEEvent.message .done],
            cancelAfter := none, toolResults := fun _ => ⟨true, "ok", none⟩ }
          (fun _ => true) "c" "p" [] [] "sys").2.fullThinking,
        [], true⟩] :=
  C3_ten_iterations_then_ok _ _ "c" "p" "sys" [] [] rfl (fun _ => rfl)
    (fun _ => show streamToolCalls [SSEEvent.message (.payload (some
        ⟨[⟨⟨none, none, some [⟨0, some "i", some ⟨some "t", some "{}"⟩⟩]⟩⟩]⟩)),
        SSEEvent.message .done] ≠ [] by decide)

/-! ## Lemmas: a stream error ends the iteration, nothing more -/

lemma ptd_append_errored : ∀ (pre rest : List SSEEvent),
    processedToolDeltas (pre ++ SSEEvent.errored :: rest) =
      processedToolDeltas (pre ++ [SSEEvent.errored])
  | [], _ => rfl
  | e :: pre, rest => by
    cases e with
    | opened => exact ptd_append_errored pre rest
    | errored => rfl
    | message md =>
      cases md with
      | done => rfl
      | payload p =>
        cases p with
        | none => exact ptd_append_errored pre rest
        | some resp =>
          simp only [List.cons_append, processedToolDeltas]
          cases hh : resp.choices.head? with
          | none => exact ptd_append_errored pre rest
          | some choice =>
            dsimp only
            exact congrArg
              (fun l => choice.delta.tool_calls.getD [] ++ l)
              (ptd_append_errored pre rest)

/-- Once the event loop hits a stream error it stops reading: the events
after the error never influence the result. -/
lemma processEvents_stops_at_error (cancelAfter : Option Nat)
    (chatId : String) : ∀ (pre rest rest' : List SSEEvent) (acc : IterAcc)
    (s : TurnState),
    processEvents cancelAfter chatId (pre ++ SSEEvent.errored :: rest) acc s =
      processEvents cancelAfter chatId (pre ++ SSEEvent.errored :: rest') acc s := by
  intro pre
  induction pre with
  | nil => intro rest rest' acc s; rfl
  | cons e pre ih =>
    intro rest rest' acc s
    simp only [List.cons_append, processEvents]
    by_cases hcn : cancelledNow cancelAfter s = true
    · rw [if_pos hcn, if_pos hcn]
    · rw [if_neg hcn, if_neg hcn]
      cases e with
      | opened => exact ih rest rest' acc (noteCheck s)
      | errored => rfl
      | message md =>
        cases md with
        | done => rfl
        | payload p =>
          cases p with
          | none => exact ih rest rest' acc (noteCheck s)
          | some resp =>
            dsimp only
            cases hh : resp.choices.head? with
            | none => exact ih rest rest' acc (noteCheck s)
            | some choice =>
              dsimp only
              exact ih rest rest' _ _

/-- **C9.** A transport error on the SSE stream after it has opened neither
aborts the turn nor is retried: the events after the `Err` are never read
(the run is unchanged under any replacement of them), and when the events
before the error accumulated no tool call, `chat_stream` issues exactly one
completion request, persists the user message and the assistant message with
whatever text accumulated, and returns `Ok`. -/
theorem C9_sse_error_graceful (env : ChatEnv) (emitOk : Nat → Bool)
    (chatId prompt systemPrompt : String) (images : List String)
    (history : List (String × String × List String))
    (pre rest rest' : List SSEEvent)
    (hc : env.cancelAfter = none)
    (he : ∀ n, emitOk n = true)
    (hs : env.streams 0 = pre ++ SSEEvent.errored :: rest)
    (htc : streamToolCalls (pre ++ [SSEEvent.errored]) = []) :
    chat_stream { env with streams := fun k =>
        if k = 0 then pre ++ SSEEvent.errored :: rest' else env.streams k }
      emitOk chatId prompt images history systemPrompt =
      chat_stream env emitOk chatId prompt images history systemPrompt ∧
    (chat_stream env emitOk chatId prompt images history systemPrompt).1 =
      .ok (chat_stream env emitOk chatId prompt images history systemPrompt).2 ∧
    (chat_stream env emitOk chatId prompt images history systemPrompt).2.requests = 1 ∧
    (chat_stream env emitOk chatId prompt images history systemPrompt).2.saved =
      [⟨"user", prompt, "", images, false⟩,
       ⟨"assistant",
        (chat_stream env emitOk chatId prompt images history systemPrompt).2.fullContent,
        (chat_stream env emitOk chatId prompt images history systemPrompt).2.fullThinking,
        [], true⟩] := by
  have hnt : ¬ (!true) = true := by simp
  have hM : MAX_TOOL_ITERATIONS = 9 + 1 := rfl
  have hempty : streamToolCalls (env.streams 0) = [] := by
    rw [hs, streamToolCalls, ptd_append_errored]
    exact htc
  have hempty' : streamToolCalls
      (({ env with streams := fun k =>
        if k = 0 then pre ++ SSEEvent.errored :: rest' else env.streams k } :
          ChatEnv).streams 0) = [] := by
    show streamToolCalls (pre ++ SSEEvent.errored :: rest') = []
    rw [streamToolCalls, ptd_append_errored]
    exact htc
  have hbreak := runIterations_break env chatId 0 9
    (recordEmit (.chatBegin chatId)
      (chatInitState prompt images history systemPrompt)) hc hempty
  have hbreak' := runIterations_break
    { env with streams := fun k =>
        if k = 0 then pre ++ SSEEvent.errored :: rest' else env.streams k }
    chatId 0 9
    (recordEmit (.chatBegin chatId)
      (chatInitState prompt images history systemPrompt)) hc hempty'
  refine ⟨?_, ?_, ?_, ?_⟩
  · rw [chat_stream, chat_stream]
    dsimp only
    simp only [he]
    rw [if_neg hnt, if_neg hnt, if_neg hnt, if_neg hnt]
    rw [hM, hbreak', hbreak]
    rw [show ({ env with streams := fun k =>
        if k = 0 then pre ++ SSEEvent.errored :: rest' else env.streams k } :
          ChatEnv).streams 0 = pre ++ SSEEvent.errored :: rest' from rfl]
    rw [hs]
    rw [processEvents_stops_at_error none chatId pre rest' rest _ _]
  · rw [chat_stream]
    dsimp only
    simp only [he]
    rw [if_neg hnt, if_neg hnt]
  · rw [chat_stream]
    dsimp only
    simp only [he]
    rw [if_neg hnt, if_neg hnt]
    show (runIterations env chatId 0 MAX_TOOL_ITERATIONS
      (recordEmit (.chatBegin chatId)
        (chatInitState prompt images history systemPrompt))).requests = 1
    rw [hM, hbreak]
    rw [(processEvents_frame _ _ _ _ _).2]
    rfl
  · rw [chat_stream]
    dsimp only
    simp only [he]
    rw [if_neg hnt, if_neg hnt]
    show (runIterations env chatId 0 MAX_TOOL_ITERATIONS
        (recordEmit (.chatBegin chatId)
          (chatInitState prompt images history systemPrompt))).saved ++
      [⟨"assistant",
        (runIterations env chatId 0 MAX_TOOL_ITERATIONS
          (recordEmit (.chatBegin chatId)
            (chatInitState prompt images history systemPrompt))).fullContent,
        (runIterations env chatId 0 MAX_TOOL_ITERATIONS
          (recordEmit (.chatBegin chatId)
            (chatInitState prompt images history systemPrompt))).fullThinking,
        [], true⟩] =
      [⟨"user", prompt, "", images, false⟩,
       ⟨"assistant",
        (runIterations env chatId 0 MAX_TOOL_ITERATIONS
          (recordEmit (.chatBegin chatId)
            (chatInitState prompt images history systemPrompt))).fullContent,
        (runIterations env chatId 0 MAX_TOOL_ITERATIONS
          (recordEmit (.chatBegin chatId)
            (chatInitState prompt images history systemPrompt))).fullThinking,
        [], true⟩]
    rw [hM, hbreak]
    rw [(processEvents_frame _ _ _ _ _).1]
    rfl

/-- Witness for C9: one content delta, then a stream error, then events that
are never read. -/
theorem C9_sse_error_graceful_witness :
    chat_stream
        { streams := fun k => if k = 0 then
            [SSEEvent.message (.payload (some ⟨[⟨⟨some "begun", none, none⟩⟩]⟩)),
             SSEEvent.errored, SSEEvent.message .done]
          else ((fun _ =>
            [SSEEvent.message (.payload (some ⟨[⟨⟨some "begun", none, none⟩⟩]⟩)),
             SSEEvent.errored]) : Nat → List SSEEvent) k,
          cancelAfter := none,
          toolResults := fun _ => ⟨true, "", none⟩ }
        (fun _ => true) "c" "p" [] [] "sys" =
      chat_stream
        { streams := fun _ =>
            [SSEEvent.message (.payload (some ⟨[⟨⟨some "begun", none, none⟩⟩]⟩)),
             SSEEvent.errored],
          cancelAfter := none,
          toolResults := fun _ => ⟨true, "", none⟩ }
        (fun _ => true) "c" "p" [] [] "sys" ∧
    (chat_stream
      { streams := fun _ =>
          [SSEEvent.message (.payload (some ⟨[⟨⟨some "begun", none, none⟩⟩]⟩)),
           SSEEvent.errored],
        cancelAfter := none,
        toolResults := fun _ => ⟨true, "", none⟩ }
      (fun _ => true) "c" "p" [] [] "sys").1 =
      .ok (chat_stream
        { streams := fun _ =>
            [SSEEvent.message (.payload (some ⟨[⟨⟨some "begun", none, none⟩⟩]⟩)),
             SSEEvent.errored],
          cancelAfter := none,
          toolResults := fun _ => ⟨true, "", none⟩ }
        (fun _ => true) "c" "p" [] [] "sys").2 ∧
    (chat_stream
      { streams := fun _ =>
          [SSEEvent.message (.payload (some ⟨[⟨⟨some "begun", none, none⟩⟩]⟩)),
           SSEEvent.errored],
        cancelAfter := none,
        toolResults := fun _ => ⟨true, "", none⟩ }
      (fun _ => true) "c" "p" [] [] "sys").2.requests = 1 := by
  have h := C9_sse_error_graceful
    { streams := fun _ =>
        [SSEEvent.message (.payload (some ⟨[⟨⟨some "begun", none, none⟩⟩]⟩)),
         SSEEvent.errored],
      cancelAfter := none,
      toolResults := fun _ => ⟨true, "", none⟩ }
    (fun _ => true) "c" "p" "sys" [] []
    [SSEEvent.message (.payload (some ⟨[⟨⟨some "begun", none, none⟩⟩]⟩))]
    [] [SSEEvent.message .done]
    rfl (fun _ => rfl) rfl (by decide)
  exact ⟨h.1, h.2.1, h.2.2.1⟩

end EigenAgent
